import Mathlib

/-!
# Verification of `node-red-contrib-philips-airplus`

Shallow embedding of the protocol normalizer (`src/lib/parser.js` and its
sibling variant in `src/unnamed/part_009`, plus the NCP-message parser in
`src/unnamed/part_008`) and of the MQTT session manager
(`createMqttClient` in `src/unnamed/part_007`, first variant, whose line
numbers the claims cite).

Machine integers are modelled as `Int`; JS fractional arithmetic that the
claims touch is modelled as `Rat` (at every concrete witness input used
below the binary64 computation performed by the JS engine is exact, so the
rational model agrees with the source).  `Math.round` is `fun x => ⌊x + 1/2⌋`
(round half toward +∞), which is JS semantics for all finite arguments.
-/

namespace AirPlus

/-- A JS value as it appears in raw shadow field patches: the sources emit
either numbers or strings. -/
inductive JsVal where
  | num (n : Int)
  | str (s : String)
deriving DecidableEq, Repr

/-- JS `Math.round`: round half toward positive infinity. -/
def jsRound (q : Rat) : Int := ⌊q + 1/2⌋

/-- JS truthiness of a possibly-absent integer field: present and nonzero. -/
def jsTruthyInt : Option Int → Bool
  | some n => n ≠ 0
  | none => false

/-- `MODE_NAMES` lookup table from `src/unnamed/part_006` (legacy letter
codes for the v1 protocol). -/
def MODE_NAMES (m : String) : Option String :=
  if m = "A" then some "auto"
  else if m = "S" then some "sleep"
  else if m = "T" then some "turbo"
  else if m = "M" then some "manual"
  else none

/-- Canonical command options accepted by `buildDesiredState` (both
variants): each attribute is optional, `none` models a JS `undefined`. -/
structure CommandOptions where
  power : Option Bool := none
  mode : Option String := none
  fanSpeed : Option Int := none
  targetHumidity : Option Int := none
  childLock : Option Bool := none
  displayLight : Option Int := none
deriving DecidableEq, Repr

/-- The mode/fan-speed block of `buildDesiredState` in `src/lib/parser.js`
(lines 240-254): guarded by `options.mode !== undefined || options.fanSpeed
!== undefined`; `options.mode || 'manual'` treats the empty string as
absent; manual fan speed is clamped to 1..16. -/
def modeFieldLib (o : CommandOptions) : List (String × JsVal) :=
  if o.mode.isSome || o.fanSpeed.isSome then
    let m0 := match o.mode with
      | some s => if s = "" then "manual" else s
      | none => "manual"
    let m := m0.toLower
    if m = "auto" then [("D0310C", JsVal.num 0)]
    else if m = "sleep" then [("D0310C", JsVal.num 17)]
    else if m = "turbo" then [("D0310C", JsVal.num 18)]
    else if m = "manual" then
      match o.fanSpeed with
      | some fs => [("D0310C", JsVal.num (max 1 (min 16 fs)))]
      | none => []
    else []
  else []

/-- `buildDesiredState` of `src/lib/parser.js` (lines 230-269), as the
association list of emitted (key, value) pairs in source order.  Note the
legacy string-keyed encodings `rhset`, `cl`, `uil`. -/
def buildDesiredState_lib (o : CommandOptions) : List (String × JsVal) :=
  (match o.power with
    | some p => [("D03102", JsVal.num (if p then 1 else 0))]
    | none => [])
  ++ modeFieldLib o
  ++ (match o.targetHumidity with
    | some h => [("rhset", JsVal.str (toString h))]
    | none => [])
  ++ (match o.childLock with
    | some c => [("cl", JsVal.str (if c then "1" else "0"))]
    | none => [])
  ++ (match o.displayLight with
    | some l => [("uil", JsVal.str (toString l))]
    | none => [])

/-- The mode/fan-speed block of `buildDesiredState` in
`src/unnamed/part_009` (lines 192-206): identical to the lib variant except
manual fan speed is clamped to 1..2 (AC3737). -/
def modeField009 (o : CommandOptions) : List (String × JsVal) :=
  if o.mode.isSome || o.fanSpeed.isSome then
    let m0 := match o.mode with
      | some s => if s = "" then "manual" else s
      | none => "manual"
    let m := m0.toLower
    if m = "auto" then [("D0310C", JsVal.num 0)]
    else if m = "sleep" then [("D0310C", JsVal.num 17)]
    else if m = "turbo" then [("D0310C", JsVal.num 18)]
    else if m = "manual" then
      match o.fanSpeed with
      | some fs => [("D0310C", JsVal.num (max 1 (min 2 fs)))]
      | none => []
    else []
  else []

/-- `buildDesiredState` of `src/unnamed/part_009` (lines 182-224): all
emitted keys are v3 DIDs (`D03128`, `D03103`, `D03105` instead of the lib
variant's legacy `rhset`, `cl`, `uil`). -/
def buildDesiredState_009 (o : CommandOptions) : List (String × JsVal) :=
  (match o.power with
    | some p => [("D03102", JsVal.num (if p then 1 else 0))]
    | none => [])
  ++ modeField009 o
  ++ (match o.targetHumidity with
    | some h => [("D03128", JsVal.num h)]
    | none => [])
  ++ (match o.childLock with
    | some c => [("D03103", JsVal.num (if c then 1 else 0))]
    | none => [])
  ++ (match o.displayLight with
    | some l => [("D03105", JsVal.num l)]
    | none => [])

/-- The newest-generation (v3) numeric field identifiers recognized by the
normalizers in the source ("uses DIDs like D03102, D03221"): the DID keys
probed first in `parseReportedState` of either variant. -/
def v3FieldKeys : List String :=
  ["D03102", "D0310C", "D03125", "D03221", "D03224", "D03120",
   "D03128", "D03103", "D03105", "D0310D", "D0312B", "D0540E", "D05408"]

/-- The raw reported fields probed by the claim-relevant blocks of
`parseReportedState` (mode, fan speed, temperature, filter), named after
the JS keys.  `none` models an absent key. -/
structure RawReported where
  D0310C : Option Int := none
  mode : Option String := none
  om : Option Int := none
  fanSpeed : Option Int := none
  D03224 : Option Int := none
  temp : Option Int := none
  temperature : Option Int := none
  D0540E : Option Int := none
  D05408 : Option Int := none
  fltsts0 : Option Int := none
  fltsts1 : Option Int := none
  fltt0 : Option Int := none
  fltt1 : Option Int := none
deriving DecidableEq, Repr

/-- The `status.filter` sub-object built by `parseReportedState`. -/
structure FilterStatus where
  cleanRemaining : Option Int := none
  cleanNominal : Option Int := none
  replaceRemaining : Option Int := none
  replaceNominal : Option Int := none
  cleanPercent : Option Int := none
  replacePercent : Option Int := none
deriving DecidableEq, Repr

/-- The filter field-collection block of `parseReportedState`, textually
identical in `src/lib/parser.js` (lines 176-200) and
`src/unnamed/part_009` (lines 127-152): each present key materializes the
`status.filter` object (`status.filter || {}`) and sets its field; note
`fltsts1`/`fltt1` overwrite the v3 `D0540E`/`D05408` values when both are
present. -/
def parseShadowFilterBase (r : RawReported) : Option FilterStatus :=
  let f : Option FilterStatus := none
  let f := match r.D0540E with
    | some v => some { f.getD {} with replaceRemaining := some v }
    | none => f
  let f := match r.D05408 with
    | some v => some { f.getD {} with replaceNominal := some v }
    | none => f
  let f := match r.fltsts0 with
    | some v => some { f.getD {} with cleanRemaining := some v }
    | none => f
  let f := match r.fltsts1 with
    | some v => some { f.getD {} with replaceRemaining := some v }
    | none => f
  let f := match r.fltt0 with
    | some v => some { f.getD {} with cleanNominal := some v }
    | none => f
  match r.fltt1 with
  | some v => some { f.getD {} with replaceNominal := some v }
  | none => f

/-- The percentage-derivation block (`src/lib/parser.js` lines 202-214,
`src/unnamed/part_009` lines 154-166): a percentage is computed only under
the JS-truthiness guard `nominal && remaining !== undefined`. -/
def applyShadowPercents (fl : FilterStatus) : FilterStatus :=
  let fl := if jsTruthyInt fl.cleanNominal ∧ fl.cleanRemaining.isSome then
      { fl with cleanPercent := some (jsRound
          ((fl.cleanRemaining.getD 0 : Rat) / (fl.cleanNominal.getD 0 : Rat) * 100)) }
    else fl
  if jsTruthyInt fl.replaceNominal ∧ fl.replaceRemaining.isSome then
    { fl with replacePercent := some (jsRound
        ((fl.replaceRemaining.getD 0 : Rat) / (fl.replaceNominal.getD 0 : Rat) * 100)) }
  else fl

/-- The complete filter block of `parseReportedState` (both shadow-parser
variants): collect the fields, then derive the percentages. -/
def parseShadowFilter (r : RawReported) : Option FilterStatus :=
  (parseShadowFilterBase r).map applyShadowPercents

/-- Claim-relevant projection of the status built by `parseReportedState`
in `src/lib/parser.js`.  The lib variant's temperature is an `Int` because
the v3 branch rounds and the v1 fallbacks parse integers. -/
structure StatusLib where
  mode : Option String := none
  modeRaw : Option JsVal := none
  fanSpeed : Option Int := none
  temperature : Option Int := none
  filter : Option FilterStatus := none
deriving DecidableEq, Repr

/-- Claim-relevant projection of the status built by `parseReportedState`
in `src/unnamed/part_009`.  Its temperature is `reported.D03224 / 10`
without rounding, hence a `Rat`. -/
structure Status009 where
  mode : Option String := none
  modeRaw : Option Int := none
  fanSpeed : Option Int := none
  temperature : Option Rat := none
  filter : Option FilterStatus := none
deriving DecidableEq, Repr

/-- The mode block of `parseReportedState` in `src/lib/parser.js`
(lines 65-85), as the triple (mode, modeRaw, fan speed set by the manual
branch): v3 `D0310C` first (0 = auto, 17 = sleep, 18 = turbo, 1..16 =
manual with fan speed, anything else the synthetic `mode_N`), falling back
to the v1 letter-coded `mode` key via `MODE_NAMES`. -/
def parseModeFanLib (r : RawReported) : Option String × Option JsVal × Option Int :=
  match r.D0310C with
  | some v =>
    if v = 0 then (some "auto", some (JsVal.num v), none)
    else if v = 17 then (some "sleep", some (JsVal.num v), none)
    else if v = 18 then (some "turbo", some (JsVal.num v), none)
    else if 1 ≤ v ∧ v ≤ 16 then (some "manual", some (JsVal.num v), some v)
    else (some ("mode_" ++ toString v), some (JsVal.num v), none)
  | none => match r.mode with
    | some m => (some ((MODE_NAMES m).getD m), some (JsVal.str m), none)
    | none => (none, none, none)

/-- The fan-speed fallback of `src/lib/parser.js` (lines 87-94): only when
the mode block left `status.fanSpeed` undefined, probe the v1 `om` and
`fanSpeed` keys. -/
def parseFanSpeedLib (r : RawReported) : Option Int :=
  match (parseModeFanLib r).2.2 with
  | some v => some v
  | none => match r.om with
    | some v => some v
    | none => match r.fanSpeed with
      | some v => some v
      | none => none

/-- The temperature block of `src/lib/parser.js` (lines 112-119): v3
`D03224` is deci-degrees, converted with `Math.round(x / 10)`; the v1
`temp`/`temperature` keys are taken as-is. -/
def parseTemperatureLib (r : RawReported) : Option Int :=
  match r.D03224 with
  | some t => some (jsRound ((t : Rat) / 10))
  | none => match r.temp with
    | some t => some t
    | none => match r.temperature with
      | some t => some t
      | none => none

/-- `parseReportedState` of `src/lib/parser.js`, claim-relevant fields
(each block of the source writes exactly its own fields, so the object it
returns is this record). -/
def parseReportedState_lib (r : RawReported) : StatusLib :=
  { mode := (parseModeFanLib r).1,
    modeRaw := (parseModeFanLib r).2.1,
    fanSpeed := parseFanSpeedLib r,
    temperature := parseTemperatureLib r,
    filter := parseShadowFilter r }

/-- The mode block of `parseReportedState` in `src/unnamed/part_009`
(lines 60-77): identical decoding of `D0310C`, no v1 fallback. -/
def parseModeFan009 (r : RawReported) : Option String × Option Int × Option Int :=
  match r.D0310C with
  | some v =>
    if v = 0 then (some "auto", some v, none)
    else if v = 17 then (some "sleep", some v, none)
    else if v = 18 then (some "turbo", some v, none)
    else if 1 ≤ v ∧ v ≤ 16 then (some "manual", some v, some v)
    else (some ("mode_" ++ toString v), some v, none)
  | none => (none, none, none)

/-- The temperature block of `src/unnamed/part_009` (lines 89-92): the
unrounded quotient `parseInt(reported.D03224, 10) / 10`. -/
def parseTemperature009 (r : RawReported) : Option Rat :=
  match r.D03224 with
  | some t => some ((t : Rat) / 10)
  | none => none

/-- `parseReportedState` of `src/unnamed/part_009`, claim-relevant
fields. -/
def parseReportedState_009 (r : RawReported) : Status009 :=
  { mode := (parseModeFan009 r).1,
    modeRaw := (parseModeFan009 r).2.1,
    fanSpeed := (parseModeFan009 r).2.2,
    temperature := parseTemperature009 r,
    filter := parseShadowFilter r }

/-- Raw properties of the `filtRd` port handled by `parseFilterProperties`
in `src/unnamed/part_008`. -/
structure FilterProps where
  fltsts0 : Option Int := none
  fltt0 : Option Int := none
  fltsts1 : Option Int := none
  fltt1 : Option Int := none
deriving DecidableEq, Repr

/-- Result of `parseFilterProperties` in `src/unnamed/part_008`
(lines 157-196): besides percentages it derives the ≤5% alert flags. -/
structure FilterReadStatus where
  cleanRemaining : Option Int := none
  cleanNominal : Option Int := none
  replaceRemaining : Option Int := none
  replaceNominal : Option Int := none
  cleanPercent : Option Int := none
  replacePercent : Option Int := none
  needsCleaning : Bool := false
  needsReplacement : Bool := false
deriving DecidableEq, Repr

/-- `parseFilterProperties` of `src/unnamed/part_008` (lines 157-196):
each present key is copied into its field (the four `'key' in props`
conditionals), then the percentages are derived under the same
JS-truthiness guards, then the ≤5% alert flags. -/
def parseFilterProperties (p : FilterProps) : FilterReadStatus :=
  let f : FilterReadStatus :=
    { cleanRemaining := p.fltsts0, cleanNominal := p.fltt0,
      replaceRemaining := p.fltsts1, replaceNominal := p.fltt1 }
  let f := if jsTruthyInt f.cleanNominal ∧ f.cleanRemaining.isSome then
      { f with cleanPercent := some (jsRound
          ((f.cleanRemaining.getD 0 : Rat) / (f.cleanNominal.getD 0 : Rat) * 100)) }
    else f
  let f := if jsTruthyInt f.replaceNominal ∧ f.replaceRemaining.isSome then
      { f with replacePercent := some (jsRound
          ((f.replaceRemaining.getD 0 : Rat) / (f.replaceNominal.getD 0 : Rat) * 100)) }
    else f
  let f := { f with needsCleaning := f.cleanPercent.isSome ∧ f.cleanPercent.getD 0 ≤ 5 }
  { f with needsReplacement := f.replacePercent.isSome ∧ f.replacePercent.getD 0 ≤ 5 }

namespace Mqtt

/-- Request operation: the two shadow request kinds the client issues
(`get:` and `update:` request-id prefixes in part_007). -/
inductive Op where
  | get
  | update
deriving DecidableEq, Repr

/-- A pending-request key: `requestId = `${op}:${deviceId}`` in part_007. -/
structure ReqKey where
  device : String
  op : Op
deriving DecidableEq, Repr

/-- The ways a request promise can settle in part_007: `resolve(data)`,
`reject` on a rejected response, on deadline expiry, on supersession, or
on caller disconnect. -/
inductive Outcome where
  | resolved
  | rejectedMessage
  | rejectedTimeout
  | rejectedSuperseded
  | rejectedDisconnected
deriving DecidableEq, Repr

/-- Externally visible actions of a connect attempt: the `getMqttInfo()`
credential fetch and the `mqttLib.connect` transport attempt. -/
inductive ExtAction where
  | credentialFetch
  | transportConnect
deriving DecidableEq, Repr

/-- Circuit-breaker mode (cockatiel's closed / open / halfOpen).  `opened`
remembers the time the breaker tripped, for the 5-minute cool-down. -/
inductive BreakerMode where
  | closed
  | opened (openedAt : Nat)
  | halfOpen
deriving DecidableEq, Repr

/-- The mutable closure state of `createMqttClient` (part_007, first
variant).  `pending` is the `pendingRequests` map as an association list
(key, requestId, timeoutMs); `settled` records how each issued request's
promise settled (a JS promise settles at most once); `wireSubscribed` is
the set of devices whose five shadow topics are subscribed on the live
MQTT session (it dies with the connection, since clients are created
fresh with `clean: true`); `liveReconnectTimers` tracks the reconnect
timeouts actually scheduled and not yet fired or cleared, while
`reconnectTimerVar` is the `reconnectTimer` variable. -/
structure Sess where
  clientPresent : Bool
  connected : Bool
  authorizedDeviceId : Option String
  subscribedDevices : List String
  wireSubscribed : List String
  pending : List (ReqKey × Nat × Nat)
  settled : List (Nat × Outcome)
  nextId : Nat
  reconnectTimerVar : Option Nat
  liveReconnectTimers : List Nat
  credentialsRefreshTimer : Bool
  reconnectAttempts : Nat
  scheduledDelays : List Nat
  isIntentionalDisconnect : Bool
  breakerMode : BreakerMode
  consecutiveFailures : Nat
deriving DecidableEq, Repr

/-- Timing constants from `src/unnamed/part_005`: reconnect backoff base
1s, cap 300s; and from part_007: breaker threshold 10, cool-down 5 min,
default request timeout 10s. -/
def RECONNECT_BASE_MS : Nat := 1000

def RECONNECT_MAX_MS : Nat := 300000

def HALF_OPEN_AFTER_MS : Nat := 5 * 60 * 1000

def BREAKER_THRESHOLD : Nat := 10

def DEFAULT_REQUEST_TIMEOUT_MS : Nat := 10000

def settledIn (l : List (Nat × Outcome)) (id : Nat) : Option Outcome :=
  (l.find? (fun e => e.1 == id)).map Prod.snd

/-- How the promise of request `id` settled (if it has). -/
def settledOf (s : Sess) (id : Nat) : Option Outcome := settledIn s.settled id

/-- Settling a JS promise is idempotent: a second resolve/reject is a
no-op. -/
def settleOnce (l : List (Nat × Outcome)) (id : Nat) (o : Outcome) : List (Nat × Outcome) :=
  if (l.find? (fun e => e.1 == id)).isSome then l else (id, o) :: l

/-- `pendingRequests.get(requestId)` — the id of the pending request for a
key, if any. -/
def lookupPending (s : Sess) (k : ReqKey) : Option Nat :=
  (s.pending.find? (fun e => e.1 == k)).map (fun e => e.2.1)

def removePending (l : List (ReqKey × Nat × Nat)) (k : ReqKey) : List (ReqKey × Nat × Nat) :=
  l.filter (fun e => e.1 != k)

/-- Common body of `getDeviceState` (lines 510-536) and
`updateDeviceState` (lines 545-577): reject `Not connected` if the session
is down (table untouched); otherwise reject any existing request for the
same key with `Superseded by new request` (its deadline timer is cleared),
then register the new request under the key and publish. -/
def issueRequest (k : ReqKey) (timeoutMs : Nat) (s : Sess) : Sess :=
  if s.connected ∧ s.clientPresent then
    let s1 := match lookupPending s k with
      | some oldId => { s with settled := settleOnce s.settled oldId Outcome.rejectedSuperseded }
      | none => s
    { s1 with pending := (k, s1.nextId, timeoutMs) :: removePending s1.pending k,
              nextId := s1.nextId + 1 }
  else s

def getDeviceState (d : String) (timeoutMs : Nat) (s : Sess) : Sess :=
  issueRequest ⟨d, Op.get⟩ timeoutMs s

def updateDeviceState (d : String) (timeoutMs : Nat) (s : Sess) : Sess :=
  issueRequest ⟨d, Op.update⟩ timeoutMs s

/-- The deadline timer of the pending request for `k` fires (its timer is
live only while its entry is current): `pendingRequests.delete(requestId)`
then `reject(new Error('Request timeout'))`. -/
def fireRequestTimeout (k : ReqKey) (s : Sess) : Sess :=
  match lookupPending s k with
  | some id => { s with pending := removePending s.pending k,
                        settled := settleOnce s.settled id Outcome.rejectedTimeout }
  | none => s

/-- `handleMessage` on a `get/update` `accepted`/`rejected` topic
(lines 142-187): look up the matching pending request, clear its timer,
remove it, settle it; no-op if none. -/
def handleShadowResponse (k : ReqKey) (accepted : Bool) (s : Sess) : Sess :=
  match lookupPending s k with
  | some id => { s with pending := removePending s.pending k,
                        settled := settleOnce s.settled id
                          (if accepted then Outcome.resolved else Outcome.rejectedMessage) }
  | none => s

/-- `clearTimeout(reconnectTimer); reconnectTimer = null`. -/
def clearReconnectTimer (s : Sess) : Sess :=
  match s.reconnectTimerVar with
  | some t => { s with reconnectTimerVar := none,
                       liveReconnectTimers := s.liveReconnectTimers.filter (fun x => x != t) }
  | none => s

/-- Backoff delay of the n-th scheduled retry:
`Math.min(RECONNECT_BASE_MS * Math.pow(2, reconnectAttempts - 1), RECONNECT_MAX_MS)`. -/
def reconnectDelay (n : Nat) : Nat :=
  min (RECONNECT_BASE_MS * 2 ^ (n - 1)) RECONNECT_MAX_MS

/-- `scheduleReconnect` (lines 248-286): no-op if a reconnect timer is
already in flight; otherwise increments the attempt counter and schedules
one timer with the exponential-backoff delay. -/
def scheduleReconnect (s : Sess) : Sess :=
  if s.reconnectTimerVar.isSome then s
  else
    { s with reconnectAttempts := s.reconnectAttempts + 1,
             reconnectTimerVar := some s.nextId,
             liveReconnectTimers := s.nextId :: s.liveReconnectTimers,
             nextId := s.nextId + 1,
             scheduledDelays := s.scheduledDelays ++ [reconnectDelay (s.reconnectAttempts + 1)] }

/-- The breaker trips to `open` (cockatiel) and its `onStateChange('open')`
handler (lines 80-109) runs: the pending reconnect timer is cleared and a
recoverable advisory error is raised. -/
def breakerTrip (now : Nat) (s : Sess) : Sess :=
  let s := clearReconnectTimer s
  { s with breakerMode := BreakerMode.opened now }

/-- Modelled from the spec: the `ConsecutiveBreaker` failure accounting
lives in the external `cockatiel` library (configured with threshold 10 in
part_007 lines 72-76, not itself part of this repository).  A connect
attempt failed: the breaker counts it; at the threshold — or on any
failure of the half-open probe — the breaker opens. -/
def recordFailure (now : Nat) (s : Sess) : Sess :=
  let s1 := { s with consecutiveFailures := s.consecutiveFailures + 1 }
  match s.breakerMode with
  | BreakerMode.halfOpen => breakerTrip now s1
  | _ => if BREAKER_THRESHOLD ≤ s1.consecutiveFailures then breakerTrip now s1 else s1

/-- `handleConnect` (lines 197-223): mark connected, reset the attempt
counter, wire-subscribe the authorized device if it is requested, schedule
the credential-rotation timer. -/
def handleConnectEvt (s : Sess) : Sess :=
  let s := { s with connected := true, reconnectAttempts := 0 }
  let s := match s.authorizedDeviceId with
    | some d =>
      if d ∈ s.subscribedDevices then
        { s with wireSubscribed := if d ∈ s.wireSubscribed then s.wireSubscribed
                                   else d :: s.wireSubscribed }
      else s
    | none => s
  { s with credentialsRefreshTimer := true }

/-- Environment-chosen outcome of one `connectInternal` run: the
credential fetch fails, or the transport handshake fails/times out, or the
handshake succeeds; on the latter two the fetched credentials carry the
authorized device id. -/
inductive ConnResult where
  | credFail
  | transportFail (dev : Option String)
  | success (dev : Option String)
deriving DecidableEq, Repr

inductive ConnOutcome where
  | ok
  | failed
  | broken
deriving DecidableEq, Repr

/-- `connectInternal` (lines 351-447): gracefully closes any existing
client (with `isIntentionalDisconnect` set, so its close event schedules
nothing), fetches fresh credentials, records the authorized device id from
them, opens the transport; failures are reported to the breaker. -/
def runConnectInternal (now : Nat) (r : ConnResult) (s : Sess) :
    Sess × ConnOutcome × List ExtAction :=
  let s := if s.clientPresent then
      { s with clientPresent := false, connected := false, wireSubscribed := [] }
    else s
  match r with
  | ConnResult.credFail =>
      (recordFailure now s, ConnOutcome.failed, [ExtAction.credentialFetch])
  | ConnResult.transportFail dev =>
      let s := { s with clientPresent := true, authorizedDeviceId := dev }
      (recordFailure now s, ConnOutcome.failed,
       [ExtAction.credentialFetch, ExtAction.transportConnect])
  | ConnResult.success dev =>
      let s := { s with clientPresent := true, authorizedDeviceId := dev,
                        breakerMode := BreakerMode.closed, consecutiveFailures := 0 }
      (handleConnectEvt s, ConnOutcome.ok,
       [ExtAction.credentialFetch, ExtAction.transportConnect])

/-- Modelled from the spec (the breaker's `execute` gate is the external
`cockatiel` library): `connect()` = `connectionBreaker.execute(() =>
connectInternal())` (lines 449-451).  While the breaker is open and the
5-minute cool-down has not elapsed, `execute` fails at once with
`BrokenCircuitError`, performing no credential fetch and no transport
attempt; past the cool-down the breaker half-opens and one probe runs. -/
def connectAttemptFull (now : Nat) (r : ConnResult) (s : Sess) :
    Sess × ConnOutcome × List ExtAction :=
  match s.breakerMode with
  | BreakerMode.opened t0 =>
      if now < t0 + HALF_OPEN_AFTER_MS then (s, ConnOutcome.broken, [])
      else runConnectInternal now r { s with breakerMode := BreakerMode.halfOpen }
  | _ => runConnectInternal now r s

def connectAttempt (now : Nat) (r : ConnResult) (s : Sess) : Sess :=
  (connectAttemptFull now r s).1

def connectOutcome (now : Nat) (r : ConnResult) (s : Sess) : ConnOutcome :=
  (connectAttemptFull now r s).2.1

def connectActions (now : Nat) (r : ConnResult) (s : Sess) : List ExtAction :=
  (connectAttemptFull now r s).2.2

/-- The reconnect timer fires (lines 266-285): null the variable, try
`connect()`; on failure reschedule unless the error is the breaker's
`BrokenCircuitError`. -/
def fireReconnectTimer (now : Nat) (r : ConnResult) (s : Sess) : Sess :=
  match s.reconnectTimerVar with
  | none => s
  | some t =>
    let s := { s with reconnectTimerVar := none,
                      liveReconnectTimers := s.liveReconnectTimers.filter (fun x => x != t) }
    let res := connectAttemptFull now r s
    match res.2.1 with
    | ConnOutcome.failed => scheduleReconnect res.1
    | _ => res.1

/-- The credential-rotation timer fires (lines 288-310): null the flag,
`reconnect()`; any error schedules a reconnect. -/
def fireCredentialsRefresh (now : Nat) (r : ConnResult) (s : Sess) : Sess :=
  if s.credentialsRefreshTimer then
    let s := { s with credentialsRefreshTimer := false }
    let res := connectAttemptFull now r s
    match res.2.1 with
    | ConnOutcome.ok => res.1
    | _ => scheduleReconnect res.1
  else s

/-- Modelled from the spec (the cool-down transition is the external
`cockatiel` library): the breaker's 5-minute cool-down elapses while open
and the breaker transitions to HalfOpen; the `onStateChange('halfOpen')`
handler in part_007 (lines 110-115) then schedules one reconnect attempt,
but only if devices are still requested and no timer is already in
flight. -/
def cooldownElapsed (now : Nat) (s : Sess) : Sess :=
  match s.breakerMode with
  | BreakerMode.opened t0 =>
    if t0 + HALF_OPEN_AFTER_MS ≤ now then
      let s1 := { s with breakerMode := BreakerMode.halfOpen }
      if s1.subscribedDevices ≠ [] ∧ s1.reconnectTimerVar = none
      then scheduleReconnect s1 else s1
    else s
  | _ => s

/-- `disconnect()` (lines 460-483): clear both timers, reject every
pending request with `Disconnected`, clear the table and the requested
set, force-close the client. -/
def disconnect (s : Sess) : Sess :=
  let s := clearReconnectTimer s
  let s := { s with credentialsRefreshTimer := false }
  let s := { s with
    settled := s.pending.foldl
      (fun acc (e : ReqKey × Nat × Nat) => settleOnce acc e.2.1 Outcome.rejectedDisconnected)
      s.settled,
    pending := [] }
  let s := { s with subscribedDevices := [] }
  { s with clientPresent := false, connected := false, wireSubscribed := [] }

/-- The transport `close` event (lines 412-420): mark disconnected (the
MQTT session's wire subscriptions die with it); schedule a reconnect only
if the close was not intentional and devices are still requested; reset
the intentional-disconnect flag. -/
def handleCloseEvt (s : Sess) : Sess :=
  let s1 := { s with connected := false, wireSubscribed := [] }
  let s2 := if ¬ s.isIntentionalDisconnect ∧ s.subscribedDevices ≠ [] then
      scheduleReconnect s1
    else s1
  { s2 with isIntentionalDisconnect := false }

/-- `subscribeDevice` (lines 485-495): record the device unconditionally;
wire-subscribe only when connected with a client and the device matches
the credentials' authorized id. -/
def subscribeDevice (d : String) (s : Sess) : Sess :=
  let s := { s with subscribedDevices := if d ∈ s.subscribedDevices then s.subscribedDevices
                                         else d :: s.subscribedDevices }
  if s.connected ∧ s.authorizedDeviceId = some d ∧ s.clientPresent then
    { s with wireSubscribed := if d ∈ s.wireSubscribed then s.wireSubscribed
                               else d :: s.wireSubscribed }
  else s

/-- `unsubscribeDevice` (lines 497-502). -/
def unsubscribeDevice (d : String) (s : Sess) : Sess :=
  let s := { s with subscribedDevices := s.subscribedDevices.filter (fun x => x != d) }
  if s.connected ∧ s.clientPresent then
    { s with wireSubscribed := s.wireSubscribed.filter (fun x => x != d) }
  else s

/-- The closure state right after `createMqttClient` returns. -/
def initSess : Sess :=
  { clientPresent := false, connected := false, authorizedDeviceId := none,
    subscribedDevices := [], wireSubscribed := [], pending := [], settled := [], nextId := 0,
    reconnectTimerVar := none, liveReconnectTimers := [], credentialsRefreshTimer := false,
    reconnectAttempts := 0, scheduledDelays := [], isIntentionalDisconnect := false,
    breakerMode := BreakerMode.closed, consecutiveFailures := 0 }

/-- One event-loop turn of the session: a caller API call, a transport or
broker event, or a timer firing.  All session state is mutated only by
these single-threaded turns. -/
inductive Step : Sess → Sess → Prop where
  | connect (now : Nat) (r : ConnResult) (s : Sess) : Step s (connectAttempt now r s)
  | issue (k : ReqKey) (tmo : Nat) (s : Sess) : Step s (issueRequest k tmo s)
  | reqTimeout (k : ReqKey) (s : Sess) : Step s (fireRequestTimeout k s)
  | response (k : ReqKey) (a : Bool) (s : Sess) : Step s (handleShadowResponse k a s)
  | close (s : Sess) : Step s (handleCloseEvt s)
  | reconnectFire (now : Nat) (r : ConnResult) (s : Sess) : Step s (fireReconnectTimer now r s)
  | credRefreshFire (now : Nat) (r : ConnResult) (s : Sess) :
      Step s (fireCredentialsRefresh now r s)
  | cooldown (now : Nat) (s : Sess) : Step s (cooldownElapsed now s)
  | subscribe (d : String) (s : Sess) : Step s (subscribeDevice d s)
  | unsubscribe (d : String) (s : Sess) : Step s (unsubscribeDevice d s)
  | disconnectCall (s : Sess) : Step s (disconnect s)

/-- Zero or more event-loop turns. -/
def Steps : Sess → Sess → Prop := Relation.ReflTransGen Step

/-- States the session can actually be in. -/
def Reachable (s : Sess) : Prop := Steps initSess s

/-! Concrete run fragments used to evaluate the theorems below on real
executions of the model. -/

/-- A session that connected successfully on the first try, authorized for
device `dev1`. -/
def wSessConn : Sess := connectAttempt 0 (ConnResult.success (some "dev1")) initSess

/-- ... after one `updateState("dev1")` call. -/
def wSessUpd : Sess := updateDeviceState "dev1" 10000 wSessConn

/-- ... a connected session holding three pending requests:
`update:dev1`, `get:dev2`, `get:dev1`. -/
def wSessThree : Sess :=
  getDeviceState "dev1" 10000 (getDeviceState "dev2" 10000 wSessUpd)

/-- A session with one requested device and `n` consecutive failed connect
attempts. -/
def failN : Nat → Sess
  | 0 => subscribeDevice "dev1" initSess
  | n + 1 => connectAttempt 0 ConnResult.credFail (failN n)

/-! ### The session invariant -/

/-- Invariant of every reachable session state: pending requests hold
fresh, pairwise-distinct, still-unsettled promises; the reconnect timers
actually scheduled are exactly the one held in the `reconnectTimer`
variable; wire subscriptions exist only while connected, only for
requested devices, and only for the credentials' authorized device; a live
connection implies a client object. -/
structure Inv (s : Sess) : Prop where
  pendingUnsettled : ∀ e ∈ s.pending, settledIn s.settled e.2.1 = none
  pendingIdLt : ∀ e ∈ s.pending, e.2.1 < s.nextId
  settledIdLt : ∀ e ∈ s.settled, e.1 < s.nextId
  pendingIdsNodup : (s.pending.map (fun e => e.2.1)).Nodup
  timerLive : s.liveReconnectTimers = s.reconnectTimerVar.toList
  wireEmpty : s.connected = false → s.wireSubscribed = []
  wireReq : ∀ d ∈ s.wireSubscribed, d ∈ s.subscribedDevices
  wireAuth : ∀ d ∈ s.wireSubscribed, s.authorizedDeviceId = some d
  connClient : s.connected = true → s.clientPresent = true

/-! ### Promise-settlement helper lemmas -/

theorem settledIn_eq_none_of_lt (l : List (Nat × Outcome)) (n : Nat)
    (h : ∀ e ∈ l, e.1 < n) : settledIn l n = none := by
  have hf : l.find? (fun e => e.1 == n) = none := by
    rw [List.find?_eq_none]
    intro x hx
    simp only [beq_iff_eq]
    exact Nat.ne_of_lt (h x hx)
  simp [settledIn, hf]

theorem settleOnce_of_settled (l : List (Nat × Outcome)) (id : Nat) (o : Outcome)
    (h : (settledIn l id).isSome) : settleOnce l id o = l := by
  unfold settleOnce
  unfold settledIn at h
  split
  · rfl
  · next hn => simp [hn] at h

theorem settledIn_settleOnce_same (l : List (Nat × Outcome)) (id : Nat) (o : Outcome)
    (h : settledIn l id = none) : settledIn (settleOnce l id o) id = some o := by
  unfold settledIn at *
  unfold settleOnce
  split
  · next hs =>
    obtain ⟨e, he⟩ := Option.isSome_iff_exists.1 hs
    simp [he] at h
  · simp [List.find?_cons]

theorem settledIn_settleOnce_other (l : List (Nat × Outcome)) (id : Nat) (o : Outcome)
    (id' : Nat) (h : id' ≠ id) :
    settledIn (settleOnce l id o) id' = settledIn l id' := by
  unfold settledIn settleOnce
  split
  · rfl
  · simp [List.find?_cons, beq_iff_eq, Ne.symm h]

theorem settledIn_settleOnce_mono (l : List (Nat × Outcome)) (id : Nat) (o : Outcome)
    (id' : Nat) (o' : Outcome) (h : settledIn l id' = some o') :
    settledIn (settleOnce l id o) id' = some o' := by
  by_cases hid : id' = id
  · subst hid
    rw [settleOnce_of_settled l id' o (by simp [h])]
    exact h
  · rw [settledIn_settleOnce_other l id o id' hid]
    exact h

theorem mem_settleOnce (l : List (Nat × Outcome)) (id : Nat) (o : Outcome) :
    ∀ e ∈ settleOnce l id o, e ∈ l ∨ e.1 = id := by
  intro e he
  unfold settleOnce at he
  split at he
  · exact Or.inl he
  · rcases List.mem_cons.1 he with h | h
    · subst h; exact Or.inr rfl
    · exact Or.inl h

theorem settledIn_foldl_mono (L : List (ReqKey × Nat × Nat)) (acc : List (Nat × Outcome))
    (id : Nat) (o : Outcome) (h : settledIn acc id = some o) :
    settledIn
      (L.foldl (fun a (e : ReqKey × Nat × Nat) => settleOnce a e.2.1 Outcome.rejectedDisconnected)
        acc) id = some o := by
  induction L generalizing acc with
  | nil => exact h
  | cons e L ih =>
    exact ih _ (settledIn_settleOnce_mono _ _ _ _ _ h)

theorem settledIn_foldl_mem (L : List (ReqKey × Nat × Nat)) (acc : List (Nat × Outcome))
    (id : Nat) (hm : id ∈ L.map (fun e => e.2.1)) (hn : settledIn acc id = none) :
    settledIn
      (L.foldl (fun a (e : ReqKey × Nat × Nat) => settleOnce a e.2.1 Outcome.rejectedDisconnected)
        acc) id = some Outcome.rejectedDisconnected := by
  induction L generalizing acc with
  | nil => simp at hm
  | cons e L ih =>
    simp only [List.map_cons, List.mem_cons] at hm
    rcases hm with hm | hm
    · subst hm
      exact settledIn_foldl_mono L _ _ _ (settledIn_settleOnce_same _ _ _ hn)
    · by_cases hid : id = e.2.1
      · subst hid
        exact settledIn_foldl_mono L _ _ _ (settledIn_settleOnce_same _ _ _ hn)
      · exact ih _ hm (by rw [settledIn_settleOnce_other _ _ _ _ hid]; exact hn)

theorem settleOnce_fst_lt (l : List (Nat × Outcome)) (id : Nat) (o : Outcome) (n : Nat)
    (hl : ∀ e ∈ l, e.1 < n) (hid : id < n) : ∀ e ∈ settleOnce l id o, e.1 < n := by
  intro e he
  rcases mem_settleOnce l id o e he with h | h
  · exact hl e h
  · rw [h]; exact hid

theorem foldl_settleOnce_fst_lt (L : List (ReqKey × Nat × Nat)) (acc : List (Nat × Outcome))
    (n : Nat) (hacc : ∀ e ∈ acc, e.1 < n) (hL : ∀ e ∈ L, e.2.1 < n) :
    ∀ e ∈ L.foldl
        (fun a (e : ReqKey × Nat × Nat) => settleOnce a e.2.1 Outcome.rejectedDisconnected) acc,
      e.1 < n := by
  induction L generalizing acc with
  | nil => exact hacc
  | cons x L ih =>
    exact ih _ (settleOnce_fst_lt _ _ _ _ hacc (hL x (List.mem_cons_self x L)))
      (fun e he => hL e (List.mem_cons_of_mem x he))

/-! ### Pending-table helper lemmas -/

theorem lookupPending_some {s : Sess} {k : ReqKey} {id : Nat}
    (h : lookupPending s k = some id) :
    ∃ e, e ∈ s.pending ∧ e.1 = k ∧ e.2.1 = id := by
  unfold lookupPending at h
  cases hf : s.pending.find? (fun e => e.1 == k) with
  | none => simp [hf] at h
  | some e =>
    simp [hf] at h
    refine ⟨e, List.mem_of_find?_eq_some hf, ?_, h⟩
    have := List.find?_some hf
    simpa [beq_iff_eq] using this

theorem removePending_subset (l : List (ReqKey × Nat × Nat)) (k : ReqKey) :
    ∀ e ∈ removePending l k, e ∈ l :=
  fun e he => (List.mem_filter.1 he).1

theorem removePending_key_ne (l : List (ReqKey × Nat × Nat)) (k : ReqKey) :
    ∀ e ∈ removePending l k, e.1 ≠ k := by
  intro e he
  have := (List.mem_filter.1 he).2
  simpa [bne_iff_ne] using this

theorem removePending_sublist (l : List (ReqKey × Nat × Nat)) (k : ReqKey) :
    List.Sublist (removePending l k) l :=
  List.filter_sublist l

theorem lookupPending_removePending (s : Sess) (k : ReqKey)
    (l : List (ReqKey × Nat × Nat)) (h : s.pending = removePending l k) :
    lookupPending s k = none := by
  unfold lookupPending
  rw [h, List.find?_eq_none.2]
  · rfl
  · intro e he
    simpa [beq_iff_eq] using removePending_key_ne l k e he

theorem inv_init : Inv initSess := by
  constructor <;> simp [initSess, settledIn]

theorem inv_issueRequest {s : Sess} (k : ReqKey) (tmo : Nat) (h : Inv s) :
    Inv (issueRequest k tmo s) := by
  obtain ⟨h1, h2, h3, h4, h5, h6, h7, h8, h9⟩ := h
  unfold issueRequest
  split
  case isFalse => exact ⟨h1, h2, h3, h4, h5, h6, h7, h8, h9⟩
  case isTrue hc =>
    cases hlp : lookupPending s k with
    | none =>
      dsimp only
      refine ⟨?_, ?_, ?_, ?_, h5, h6, h7, h8, h9⟩
      · intro e he
        rcases List.mem_cons.1 he with rfl | he
        · exact settledIn_eq_none_of_lt _ _ h3
        · exact h1 e (removePending_subset _ _ e he)
      · intro e he
        rcases List.mem_cons.1 he with rfl | he
        · exact Nat.lt_succ_self _
        · exact Nat.lt_succ_of_lt (h2 e (removePending_subset _ _ e he))
      · exact fun e he => Nat.lt_succ_of_lt (h3 e he)
      · simp only [List.map_cons]
        refine List.nodup_cons.2 ⟨?_, ?_⟩
        · intro hmem
          obtain ⟨e, he, heq⟩ := List.mem_map.1 hmem
          exact absurd (heq ▸ h2 e (removePending_subset _ _ e he)) (lt_irrefl _)
        · exact List.Nodup.sublist (List.Sublist.map _ (removePending_sublist _ _)) h4
    | some oldId =>
      dsimp only
      obtain ⟨eOld, heOldMem, heOldKey, heOldId⟩ := lookupPending_some hlp
      have hOldLt : oldId < s.nextId := heOldId ▸ h2 eOld heOldMem
      refine ⟨?_, ?_, ?_, ?_, h5, h6, h7, h8, h9⟩
      · intro e he
        rcases List.mem_cons.1 he with rfl | he
        · rw [settledIn_settleOnce_other _ _ _ _ (Nat.ne_of_lt hOldLt).symm]
          exact settledIn_eq_none_of_lt _ _ h3
        · have hne : e.2.1 ≠ oldId := by
            intro heq
            have heeq : e = eOld :=
              List.inj_on_of_nodup_map h4 (removePending_subset _ _ e he) heOldMem
                (heq.trans heOldId.symm)
            exact (removePending_key_ne _ _ e he) (heeq ▸ heOldKey)
          rw [settledIn_settleOnce_other _ _ _ _ hne]
          exact h1 e (removePending_subset _ _ e he)
      · intro e he
        rcases List.mem_cons.1 he with rfl | he
        · exact Nat.lt_succ_self _
        · exact Nat.lt_succ_of_lt (h2 e (removePending_subset _ _ e he))
      · exact fun e he =>
          Nat.lt_succ_of_lt (settleOnce_fst_lt _ _ _ _ h3 hOldLt e he)
      · simp only [List.map_cons]
        refine List.nodup_cons.2 ⟨?_, ?_⟩
        · intro hmem
          obtain ⟨e, he, heq⟩ := List.mem_map.1 hmem
          exact absurd (heq ▸ h2 e (removePending_subset _ _ e he)) (lt_irrefl _)
        · exact List.Nodup.sublist (List.Sublist.map _ (removePending_sublist _ _)) h4

theorem inv_fireRequestTimeout {s : Sess} (k : ReqKey) (h : Inv s) :
    Inv (fireRequestTimeout k s) := by
  obtain ⟨h1, h2, h3, h4, h5, h6, h7, h8, h9⟩ := h
  unfold fireRequestTimeout
  cases hlp : lookupPending s k with
  | none => exact ⟨h1, h2, h3, h4, h5, h6, h7, h8, h9⟩
  | some id =>
    obtain ⟨eOld, heOldMem, heOldKey, heOldId⟩ := lookupPending_some hlp
    have hIdLt : id < s.nextId := heOldId ▸ h2 eOld heOldMem
    refine ⟨?_, ?_, ?_, ?_, h5, h6, h7, h8, h9⟩
    · intro e he
      have hne : e.2.1 ≠ id := by
        intro heq
        have heeq : e = eOld :=
          List.inj_on_of_nodup_map h4 (removePending_subset _ _ e he) heOldMem
            (heq.trans heOldId.symm)
        exact (removePending_key_ne _ _ e he) (heeq ▸ heOldKey)
      rw [settledIn_settleOnce_other _ _ _ _ hne]
      exact h1 e (removePending_subset _ _ e he)
    · exact fun e he => h2 e (removePending_subset _ _ e he)
    · exact settleOnce_fst_lt _ _ _ _ h3 hIdLt
    · exact List.Nodup.sublist (List.Sublist.map _ (removePending_sublist _ _)) h4

theorem inv_handleShadowResponse {s : Sess} (k : ReqKey) (a : Bool) (h : Inv s) :
    Inv (handleShadowResponse k a s) := by
  obtain ⟨h1, h2, h3, h4, h5, h6, h7, h8, h9⟩ := h
  unfold handleShadowResponse
  cases hlp : lookupPending s k with
  | none => exact ⟨h1, h2, h3, h4, h5, h6, h7, h8, h9⟩
  | some id =>
    obtain ⟨eOld, heOldMem, heOldKey, heOldId⟩ := lookupPending_some hlp
    have hIdLt : id < s.nextId := heOldId ▸ h2 eOld heOldMem
    refine ⟨?_, ?_, ?_, ?_, h5, h6, h7, h8, h9⟩
    · intro e he
      have hne : e.2.1 ≠ id := by
        intro heq
        have heeq : e = eOld :=
          List.inj_on_of_nodup_map h4 (removePending_subset _ _ e he) heOldMem
            (heq.trans heOldId.symm)
        exact (removePending_key_ne _ _ e he) (heeq ▸ heOldKey)
      rw [settledIn_settleOnce_other _ _ _ _ hne]
      exact h1 e (removePending_subset _ _ e he)
    · exact fun e he => h2 e (removePending_subset _ _ e he)
    · exact settleOnce_fst_lt _ _ _ _ h3 hIdLt
    · exact List.Nodup.sublist (List.Sublist.map _ (removePending_sublist _ _)) h4

theorem inv_scheduleReconnect {s : Sess} (h : Inv s) : Inv (scheduleReconnect s) := by
  obtain ⟨h1, h2, h3, h4, h5, h6, h7, h8, h9⟩ := h
  unfold scheduleReconnect
  split
  · exact ⟨h1, h2, h3, h4, h5, h6, h7, h8, h9⟩
  · next hvar =>
    have hv : s.reconnectTimerVar = none := by
      cases hx : s.reconnectTimerVar with
      | none => rfl
      | some t => rw [hx] at hvar; simp at hvar
    refine ⟨h1, fun e he => Nat.lt_succ_of_lt (h2 e he),
      fun e he => Nat.lt_succ_of_lt (h3 e he), h4, ?_, h6, h7, h8, h9⟩
    rw [h5, hv]
    rfl

theorem inv_clearReconnectTimer {s : Sess} (h : Inv s) : Inv (clearReconnectTimer s) := by
  obtain ⟨h1, h2, h3, h4, h5, h6, h7, h8, h9⟩ := h
  unfold clearReconnectTimer
  cases hv : s.reconnectTimerVar with
  | none => exact ⟨h1, h2, h3, h4, h5, h6, h7, h8, h9⟩
  | some t =>
    refine ⟨h1, h2, h3, h4, ?_, h6, h7, h8, h9⟩
    rw [h5, hv]
    simp

theorem inv_breakerTrip {s : Sess} (now : Nat) (h : Inv s) : Inv (breakerTrip now s) := by
  obtain ⟨h1, h2, h3, h4, h5, h6, h7, h8, h9⟩ := inv_clearReconnectTimer h
  exact ⟨h1, h2, h3, h4, h5, h6, h7, h8, h9⟩

theorem inv_recordFailure {s : Sess} (now : Nat) (h : Inv s) : Inv (recordFailure now s) := by
  have h' : Inv { s with consecutiveFailures := s.consecutiveFailures + 1 } := by
    obtain ⟨h1, h2, h3, h4, h5, h6, h7, h8, h9⟩ := h
    exact ⟨h1, h2, h3, h4, h5, h6, h7, h8, h9⟩
  unfold recordFailure
  split
  · exact inv_breakerTrip now h'
  · dsimp only
    split
    · exact inv_breakerTrip now h'
    · exact h'

theorem inv_handleConnectEvt {s : Sess} (h : Inv s) (hc : s.clientPresent = true) :
    Inv (handleConnectEvt s) := by
  obtain ⟨h1, h2, h3, h4, h5, h6, h7, h8, h9⟩ := h
  cases ha : s.authorizedDeviceId with
  | none =>
    simp only [handleConnectEvt, ha]
    exact ⟨h1, h2, h3, h4, h5, (by intro hx; cases hx), h7,
      (fun d hd => ha ▸ h8 d hd), fun _ => hc⟩
  | some d =>
    by_cases hmem : d ∈ s.subscribedDevices
    · by_cases hw : d ∈ s.wireSubscribed
      · simp only [handleConnectEvt, ha, if_pos hmem, if_pos hw]
        exact ⟨h1, h2, h3, h4, h5, (by intro hx; cases hx), h7,
          (fun x hx => ha ▸ h8 x hx), fun _ => hc⟩
      · simp only [handleConnectEvt, ha, if_pos hmem, if_neg hw]
        refine ⟨h1, h2, h3, h4, h5, (by intro hx; cases hx), ?_, ?_, fun _ => hc⟩
        · intro x hx
          rcases List.mem_cons.1 hx with rfl | hx
          · exact hmem
          · exact h7 x hx
        · intro x hx
          rcases List.mem_cons.1 hx with rfl | hx
          · exact rfl
          · exact ha ▸ h8 x hx
    · simp only [handleConnectEvt, ha, if_neg hmem]
      exact ⟨h1, h2, h3, h4, h5, (by intro hx; cases hx), h7,
        (fun x hx => ha ▸ h8 x hx), fun _ => hc⟩

theorem inv_runConnectInternal {s : Sess} (now : Nat) (r : ConnResult) (h : Inv s) :
    Inv (runConnectInternal now r s).1 := by
  unfold runConnectInternal
  by_cases hcp : s.clientPresent = true
  case pos =>
    rw [if_pos hcp]
    have h0 : Inv { s with clientPresent := false, connected := false, wireSubscribed := [] } := by
      obtain ⟨h1, h2, h3, h4, h5, h6, h7, h8, h9⟩ := h
      exact ⟨h1, h2, h3, h4, h5, (fun _ => rfl), (by simp), (by simp), (by intro hx; cases hx)⟩
    cases r with
    | credFail => exact inv_recordFailure now h0
    | transportFail dev =>
      apply inv_recordFailure
      obtain ⟨h1, h2, h3, h4, h5, h6, h7, h8, h9⟩ := h0
      exact ⟨h1, h2, h3, h4, h5, (fun _ => rfl), (by simp), (by simp), fun _ => rfl⟩
    | success dev =>
      refine inv_handleConnectEvt ?_ rfl
      obtain ⟨h1, h2, h3, h4, h5, h6, h7, h8, h9⟩ := h0
      exact ⟨h1, h2, h3, h4, h5, (fun _ => rfl), (by simp), (by simp), fun _ => rfl⟩
  case neg =>
    rw [if_neg hcp]
    have hconn : s.connected = false := by
      cases hx : s.connected with
      | false => rfl
      | true => exact absurd (h.connClient hx) hcp
    have hwire : s.wireSubscribed = [] := h.wireEmpty hconn
    obtain ⟨h1, h2, h3, h4, h5, h6, h7, h8, h9⟩ := h
    cases r with
    | credFail => exact inv_recordFailure now ⟨h1, h2, h3, h4, h5, h6, h7, h8, h9⟩
    | transportFail dev =>
      apply inv_recordFailure
      refine ⟨h1, h2, h3, h4, h5, fun _ => hwire, ?_, ?_, fun _ => rfl⟩
      · rw [hwire]; simp
      · rw [hwire]; simp
    | success dev =>
      refine inv_handleConnectEvt ?_ rfl
      refine ⟨h1, h2, h3, h4, h5, fun _ => hwire, ?_, ?_, fun _ => rfl⟩
      · rw [hwire]; simp
      · rw [hwire]; simp

theorem inv_connectAttempt {s : Sess} (now : Nat) (r : ConnResult) (h : Inv s) :
    Inv (connectAttempt now r s) := by
  unfold connectAttempt connectAttemptFull
  split
  · split
    · exact h
    · apply inv_runConnectInternal
      obtain ⟨h1, h2, h3, h4, h5, h6, h7, h8, h9⟩ := h
      exact ⟨h1, h2, h3, h4, h5, h6, h7, h8, h9⟩
  · exact inv_runConnectInternal now r h

theorem inv_fireReconnectTimer {s : Sess} (now : Nat) (r : ConnResult) (h : Inv s) :
    Inv (fireReconnectTimer now r s) := by
  unfold fireReconnectTimer
  cases hv : s.reconnectTimerVar with
  | none => exact h
  | some t =>
    have hs1 : Inv { s with reconnectTimerVar := none,
                            liveReconnectTimers :=
                              s.liveReconnectTimers.filter (fun x => x != t) } := by
      obtain ⟨h1, h2, h3, h4, h5, h6, h7, h8, h9⟩ := h
      refine ⟨h1, h2, h3, h4, ?_, h6, h7, h8, h9⟩
      rw [h5, hv]
      simp
    dsimp only
    split
    · exact inv_scheduleReconnect (inv_connectAttempt now r hs1)
    · exact inv_connectAttempt now r hs1

theorem inv_fireCredentialsRefresh {s : Sess} (now : Nat) (r : ConnResult) (h : Inv s) :
    Inv (fireCredentialsRefresh now r s) := by
  unfold fireCredentialsRefresh
  split
  · have hs1 : Inv { s with credentialsRefreshTimer := false } := by
      obtain ⟨h1, h2, h3, h4, h5, h6, h7, h8, h9⟩ := h
      exact ⟨h1, h2, h3, h4, h5, h6, h7, h8, h9⟩
    dsimp only
    split
    · exact inv_connectAttempt now r hs1
    · exact inv_scheduleReconnect (inv_connectAttempt now r hs1)
  · exact h

theorem inv_cooldownElapsed {s : Sess} (now : Nat) (h : Inv s) :
    Inv (cooldownElapsed now s) := by
  unfold cooldownElapsed
  split
  · split
    · have hs1 : Inv { s with breakerMode := BreakerMode.halfOpen } := by
        obtain ⟨h1, h2, h3, h4, h5, h6, h7, h8, h9⟩ := h
        exact ⟨h1, h2, h3, h4, h5, h6, h7, h8, h9⟩
      dsimp only
      split
      · exact inv_scheduleReconnect hs1
      · exact hs1
    · exact h
  · exact h

theorem inv_disconnect {s : Sess} (h : Inv s) : Inv (disconnect s) := by
  obtain ⟨h1, h2, h3, h4, h5, h6, h7, h8, h9⟩ := h
  unfold disconnect clearReconnectTimer
  cases hv : s.reconnectTimerVar with
  | none =>
    refine ⟨(by simp), (by simp), ?_, (by simp), ?_, fun _ => rfl, (by simp), (by simp),
      (by intro hx; cases hx)⟩
    · exact foldl_settleOnce_fst_lt _ _ _ h3 h2
    · rw [h5, hv]
  | some t =>
    refine ⟨(by simp), (by simp), ?_, (by simp), ?_, fun _ => rfl, (by simp), (by simp),
      (by intro hx; cases hx)⟩
    · exact foldl_settleOnce_fst_lt _ _ _ h3 h2
    · rw [h5, hv]; simp

theorem inv_handleCloseEvt {s : Sess} (h : Inv s) : Inv (handleCloseEvt s) := by
  obtain ⟨h1, h2, h3, h4, h5, h6, h7, h8, h9⟩ := h
  have hs1 : Inv { s with connected := false, wireSubscribed := ([] : List String) } :=
    ⟨h1, h2, h3, h4, h5, fun _ => rfl, (by simp), (by simp), (by intro hx; cases hx)⟩
  unfold handleCloseEvt
  dsimp only
  split
  · obtain ⟨g1, g2, g3, g4, g5, g6, g7, g8, g9⟩ := inv_scheduleReconnect hs1
    exact ⟨g1, g2, g3, g4, g5, g6, g7, g8, g9⟩
  · obtain ⟨g1, g2, g3, g4, g5, g6, g7, g8, g9⟩ := hs1
    exact ⟨g1, g2, g3, g4, g5, g6, g7, g8, g9⟩

theorem inv_subscribeDevice {s : Sess} (d : String) (h : Inv s) :
    Inv (subscribeDevice d s) := by
  obtain ⟨h1, h2, h3, h4, h5, h6, h7, h8, h9⟩ := h
  have hsubMono : ∀ x, x ∈ s.subscribedDevices →
      x ∈ (if d ∈ s.subscribedDevices then s.subscribedDevices
           else d :: s.subscribedDevices) := by
    intro x hx
    split
    · exact hx
    · exact List.mem_cons_of_mem _ hx
  have hdMem : d ∈ (if d ∈ s.subscribedDevices then s.subscribedDevices
      else d :: s.subscribedDevices) := by
    split
    · next hd => exact hd
    · exact List.mem_cons_self _ _
  unfold subscribeDevice
  dsimp only
  split
  · next hcond =>
    obtain ⟨hconn, hauth, hcp⟩ := hcond
    have hcs : s.connected = true := hconn
    have hcps : s.clientPresent = true := hcp
    have hauths : s.authorizedDeviceId = some d := hauth
    refine ⟨h1, h2, h3, h4, h5, ?_, ?_, ?_, fun _ => hcps⟩
    · intro hx
      have hxs : s.connected = false := hx
      rw [hxs] at hcs
      cases hcs
    · intro x hx
      have hx' : x ∈ (if d ∈ s.wireSubscribed then s.wireSubscribed
          else d :: s.wireSubscribed) := hx
      show x ∈ (if d ∈ s.subscribedDevices then s.subscribedDevices
          else d :: s.subscribedDevices)
      split at hx'
      · exact hsubMono x (h7 x hx')
      · rcases List.mem_cons.1 hx' with rfl | hx'
        · exact hdMem
        · exact hsubMono x (h7 x hx')
    · intro x hx
      have hx' : x ∈ (if d ∈ s.wireSubscribed then s.wireSubscribed
          else d :: s.wireSubscribed) := hx
      show s.authorizedDeviceId = some x
      split at hx'
      · exact h8 x hx'
      · rcases List.mem_cons.1 hx' with rfl | hx'
        · exact hauths
        · exact h8 x hx'
  · refine ⟨h1, h2, h3, h4, h5, h6, ?_, h8, h9⟩
    intro x hx
    have hx' : x ∈ s.wireSubscribed := hx
    show x ∈ (if d ∈ s.subscribedDevices then s.subscribedDevices
        else d :: s.subscribedDevices)
    exact hsubMono x (h7 x hx')

theorem inv_unsubscribeDevice {s : Sess} (d : String) (h : Inv s) :
    Inv (unsubscribeDevice d s) := by
  obtain ⟨h1, h2, h3, h4, h5, h6, h7, h8, h9⟩ := h
  unfold unsubscribeDevice
  dsimp only
  split
  · next hcond =>
    refine ⟨h1, h2, h3, h4, h5, ?_, ?_, ?_, fun _ => hcond.2⟩
    · intro hx
      rw [hcond.1] at hx
      cases hx
    · intro x hx
      have hxw := List.mem_filter.1 hx
      refine List.mem_filter.2 ⟨h7 x hxw.1, hxw.2⟩
    · intro x hx
      exact h8 x (List.mem_filter.1 hx).1
  · next hcond =>
    have hconn : s.connected = false := by
      cases hx : s.connected with
      | false => rfl
      | true => exact absurd ⟨hx, h9 hx⟩ hcond
    have hwire : s.wireSubscribed = [] := h6 hconn
    refine ⟨h1, h2, h3, h4, h5, fun _ => hwire, ?_, h8, h9⟩
    intro x hx
    rw [hwire] at hx
    cases hx

theorem inv_step {s t : Sess} (h : Inv s) (hst : Step s t) : Inv t := by
  cases hst with
  | connect now r _ => exact inv_connectAttempt now r h
  | issue k tmo _ => exact inv_issueRequest k tmo h
  | reqTimeout k _ => exact inv_fireRequestTimeout k h
  | response k a _ => exact inv_handleShadowResponse k a h
  | close _ => exact inv_handleCloseEvt h
  | reconnectFire now r _ => exact inv_fireReconnectTimer now r h
  | credRefreshFire now r _ => exact inv_fireCredentialsRefresh now r h
  | cooldown now _ => exact inv_cooldownElapsed now h
  | subscribe d _ => exact inv_subscribeDevice d h
  | unsubscribe d _ => exact inv_unsubscribeDevice d h
  | disconnectCall _ => exact inv_disconnect h

theorem inv_reachable {s : Sess} (h : Reachable s) : Inv s := by
  unfold Reachable Steps at h
  induction h with
  | refl => exact inv_init
  | tail _ hstep ih => exact inv_step ih hstep

/-! ### The settled table only grows: no operation un-settles a promise -/

theorem settled_clearReconnectTimer (s : Sess) :
    (clearReconnectTimer s).settled = s.settled := by
  unfold clearReconnectTimer
  split <;> rfl

theorem settled_breakerTrip (now : Nat) (s : Sess) :
    (breakerTrip now s).settled = s.settled := by
  unfold breakerTrip
  dsimp only
  exact settled_clearReconnectTimer s

theorem settled_recordFailure (now : Nat) (s : Sess) :
    (recordFailure now s).settled = s.settled := by
  unfold recordFailure
  dsimp only
  split
  · exact settled_breakerTrip now _
  · split
    · exact settled_breakerTrip now _
    · rfl

theorem settled_handleConnectEvt (s : Sess) :
    (handleConnectEvt s).settled = s.settled := by
  unfold handleConnectEvt
  dsimp only
  split
  · split
    · rfl
    · rfl
  · rfl

theorem settled_runConnectInternal (now : Nat) (r : ConnResult) (s : Sess) :
    (runConnectInternal now r s).1.settled = s.settled := by
  unfold runConnectInternal
  split <;> cases r <;> dsimp only <;>
    first
      | rw [settled_recordFailure]
      | rw [settled_handleConnectEvt]

theorem settled_connectAttempt (now : Nat) (r : ConnResult) (s : Sess) :
    (connectAttempt now r s).settled = s.settled := by
  unfold connectAttempt connectAttemptFull
  split
  · split
    · rfl
    · rw [settled_runConnectInternal]
  · rw [settled_runConnectInternal]

theorem settled_scheduleReconnect (s : Sess) :
    (scheduleReconnect s).settled = s.settled := by
  unfold scheduleReconnect
  split <;> rfl

theorem settled_fireReconnectTimer (now : Nat) (r : ConnResult) (s : Sess) :
    (fireReconnectTimer now r s).settled = s.settled := by
  unfold fireReconnectTimer
  split
  · rfl
  · dsimp only
    split
    · rw [settled_scheduleReconnect]
      exact settled_connectAttempt now r _
    · exact settled_connectAttempt now r _

theorem settled_fireCredentialsRefresh (now : Nat) (r : ConnResult) (s : Sess) :
    (fireCredentialsRefresh now r s).settled = s.settled := by
  unfold fireCredentialsRefresh
  split
  · dsimp only
    split
    · exact settled_connectAttempt now r _
    · rw [settled_scheduleReconnect]
      exact settled_connectAttempt now r _
  · rfl

theorem settled_cooldownElapsed (now : Nat) (s : Sess) :
    (cooldownElapsed now s).settled = s.settled := by
  unfold cooldownElapsed
  split
  · split
    · dsimp only
      split
      · rw [settled_scheduleReconnect]
      · rfl
    · rfl
  · rfl

theorem settled_handleCloseEvt (s : Sess) :
    (handleCloseEvt s).settled = s.settled := by
  unfold handleCloseEvt
  dsimp only
  split
  · rw [settled_scheduleReconnect]
  · rfl

theorem settled_subscribeDevice (d : String) (s : Sess) :
    (subscribeDevice d s).settled = s.settled := by
  unfold subscribeDevice
  dsimp only
  split <;> rfl

theorem settled_unsubscribeDevice (d : String) (s : Sess) :
    (unsubscribeDevice d s).settled = s.settled := by
  unfold unsubscribeDevice
  dsimp only
  split <;> rfl

theorem settled_mono_issueRequest (k : ReqKey) (tmo : Nat) (s : Sess) (id : Nat) (o : Outcome)
    (h : settledIn s.settled id = some o) :
    settledIn (issueRequest k tmo s).settled id = some o := by
  unfold issueRequest
  split
  · cases hlp : lookupPending s k with
    | none => exact h
    | some oldId => exact settledIn_settleOnce_mono _ _ _ _ _ h
  · exact h

theorem settled_mono_fireRequestTimeout (k : ReqKey) (s : Sess) (id : Nat) (o : Outcome)
    (h : settledIn s.settled id = some o) :
    settledIn (fireRequestTimeout k s).settled id = some o := by
  unfold fireRequestTimeout
  cases hlp : lookupPending s k with
  | none => exact h
  | some oldId => exact settledIn_settleOnce_mono _ _ _ _ _ h

theorem settled_mono_handleShadowResponse (k : ReqKey) (a : Bool) (s : Sess) (id : Nat)
    (o : Outcome) (h : settledIn s.settled id = some o) :
    settledIn (handleShadowResponse k a s).settled id = some o := by
  unfold handleShadowResponse
  cases hlp : lookupPending s k with
  | none => exact h
  | some oldId => exact settledIn_settleOnce_mono _ _ _ _ _ h

theorem settled_mono_disconnect (s : Sess) (id : Nat) (o : Outcome)
    (h : settledIn s.settled id = some o) :
    settledIn (disconnect s).settled id = some o := by
  unfold disconnect
  dsimp only
  rw [settled_clearReconnectTimer]
  exact settledIn_foldl_mono _ _ _ _ h

/-- A settled promise stays settled the same way across any event-loop
turn: settlement is idempotent and never overwritten. -/
theorem settled_mono_step {s t : Sess} (hst : Step s t) (id : Nat) (o : Outcome)
    (h : settledIn s.settled id = some o) : settledIn t.settled id = some o := by
  cases hst with
  | connect now r _ => rw [settled_connectAttempt]; exact h
  | issue k tmo _ => exact settled_mono_issueRequest k tmo _ id o h
  | reqTimeout k _ => exact settled_mono_fireRequestTimeout k _ id o h
  | response k a _ => exact settled_mono_handleShadowResponse k a _ id o h
  | close _ => rw [settled_handleCloseEvt]; exact h
  | reconnectFire now r _ => rw [settled_fireReconnectTimer]; exact h
  | credRefreshFire now r _ => rw [settled_fireCredentialsRefresh]; exact h
  | cooldown now _ => rw [settled_cooldownElapsed]; exact h
  | subscribe d _ => rw [settled_subscribeDevice]; exact h
  | unsubscribe d _ => rw [settled_unsubscribeDevice]; exact h
  | disconnectCall _ => exact settled_mono_disconnect _ id o h

/-- A settled promise stays settled the same way forever. -/
theorem settled_mono_steps {s t : Sess} (hst : Steps s t) (id : Nat) (o : Outcome)
    (h : settledIn s.settled id = some o) : settledIn t.settled id = some o := by
  unfold Steps at hst
  induction hst with
  | refl => exact h
  | tail _ hstep ih => exact settled_mono_step hstep id o ih

theorem pending_clearReconnectTimer (s : Sess) :
    (clearReconnectTimer s).pending = s.pending := by
  unfold clearReconnectTimer
  split <;> rfl

theorem var_clearReconnectTimer (s : Sess) :
    (clearReconnectTimer s).reconnectTimerVar = none := by
  unfold clearReconnectTimer
  split
  · rfl
  · next hv => exact hv

theorem live_clearReconnectTimer {s : Sess}
    (h : s.liveReconnectTimers = s.reconnectTimerVar.toList) :
    (clearReconnectTimer s).liveReconnectTimers = [] := by
  unfold clearReconnectTimer
  cases hv : s.reconnectTimerVar with
  | none => rw [h, hv]; rfl
  | some t => dsimp only; rw [h, hv]; simp

theorem disconnect_settled (s : Sess) :
    (disconnect s).settled = s.pending.foldl
      (fun acc (e : ReqKey × Nat × Nat) => settleOnce acc e.2.1 Outcome.rejectedDisconnected)
      s.settled := by
  unfold disconnect
  dsimp only
  rw [settled_clearReconnectTimer, pending_clearReconnectTimer]

/-! ### Reachability of the concrete run fragments -/

theorem reachable_wSessConn : Reachable wSessConn :=
  Relation.ReflTransGen.single (Step.connect 0 (ConnResult.success (some "dev1")) initSess)

theorem reachable_wSessUpd : Reachable wSessUpd :=
  Relation.ReflTransGen.tail reachable_wSessConn
    (Step.issue ⟨"dev1", Op.update⟩ 10000 wSessConn)

theorem reachable_wSessThree : Reachable wSessThree :=
  Relation.ReflTransGen.tail
    (Relation.ReflTransGen.tail reachable_wSessUpd
      (Step.issue ⟨"dev2", Op.get⟩ 10000 wSessUpd))
    (Step.issue ⟨"dev1", Op.get⟩ 10000 (getDeviceState "dev2" 10000 wSessUpd))

theorem reachable_failN : ∀ n, Reachable (failN n) := by
  intro n
  induction n with
  | zero => exact Relation.ReflTransGen.single (Step.subscribe "dev1" initSess)
  | succ n ih =>
    exact Relation.ReflTransGen.tail ih (Step.connect 0 ConnResult.credFail (failN n))

end Mqtt

namespace Mqtt

/-- C1: for every session and every (deviceID, operation) key, issuing a
new request while one is pending for the same key immediately fails the
earlier awaitable with the superseded error; the new entry is registered
under the key with a fresh, still-unsettled promise (so the second of two
back-to-back `updateState` calls is still pending when the first has
already rejected); and the stale promise stays rejected-superseded across
every later event-loop turn, so it can never resolve successfully. -/
theorem C1_supersession (s : Sess) (k : ReqKey) (tmo : Nat) (oldId : Nat)
    (hreach : Reachable s) (hconn : s.connected = true) (hclient : s.clientPresent = true)
    (hold : lookupPending s k = some oldId) :
    settledIn (issueRequest k tmo s).settled oldId = some Outcome.rejectedSuperseded
    ∧ lookupPending (issueRequest k tmo s) k = some s.nextId
    ∧ oldId ≠ s.nextId
    ∧ settledIn (issueRequest k tmo s).settled s.nextId = none
    ∧ (∀ t, Steps (issueRequest k tmo s) t →
        settledIn t.settled oldId = some Outcome.rejectedSuperseded) := by
  have hinv := inv_reachable hreach
  obtain ⟨eOld, heOldMem, heOldKey, heOldId⟩ := lookupPending_some hold
  have hOldLt : oldId < s.nextId := heOldId ▸ hinv.pendingIdLt eOld heOldMem
  have hOldUnsettled : settledIn s.settled oldId = none :=
    heOldId ▸ hinv.pendingUnsettled eOld heOldMem
  have hcond : s.connected = true ∧ s.clientPresent = true := ⟨hconn, hclient⟩
  have hmain :
      settledIn (issueRequest k tmo s).settled oldId = some Outcome.rejectedSuperseded := by
    unfold issueRequest
    rw [if_pos hcond, hold]
    exact settledIn_settleOnce_same _ _ _ hOldUnsettled
  refine ⟨hmain, ?_, Nat.ne_of_lt hOldLt, ?_, ?_⟩
  · unfold issueRequest
    rw [if_pos hcond, hold]
    unfold lookupPending
    simp [List.find?_cons]
  · unfold issueRequest
    rw [if_pos hcond, hold]
    rw [settledIn_settleOnce_other _ _ _ _ (Nat.ne_of_lt hOldLt).symm]
    exact settledIn_eq_none_of_lt _ _ hinv.settledIdLt
  · intro t ht
    exact settled_mono_steps ht oldId Outcome.rejectedSuperseded hmain

/-- Evaluation of `C1_supersession` on a concrete run: after a successful
connect and one `updateState("dev1")` (request id 0), a second
`updateState("dev1")` rejects request 0 as superseded while the new
request (id 1) is registered and still pending. -/
theorem C1_supersession_witness :
    settledIn (updateDeviceState "dev1" 10000 wSessUpd).settled 0
      = some Outcome.rejectedSuperseded
    ∧ lookupPending (updateDeviceState "dev1" 10000 wSessUpd) ⟨"dev1", Op.update⟩
      = some wSessUpd.nextId
    ∧ settledIn (updateDeviceState "dev1" 10000 wSessUpd).settled wSessUpd.nextId = none := by
  have h := C1_supersession wSessUpd ⟨"dev1", Op.update⟩ 10000 0 reachable_wSessUpd
    (by decide) (by decide) (by decide)
  exact ⟨h.1, h.2.1, h.2.2.2.1⟩

/-- C3: a caller-initiated `disconnect()` rejects every pending request
with the disconnect error, empties the pending table, clears the
requested-device set, cancels the reconnect-backoff timer (the variable is
nulled and no scheduled timer remains live) and the credential-rotation
timer, closes the transport, ends Disconnected — and the transport close
event that follows schedules no reconnect. -/
theorem C3_disconnect_cleanup (s : Sess) (hreach : Reachable s) :
    (∀ e ∈ s.pending, settledIn (disconnect s).settled e.2.1
        = some Outcome.rejectedDisconnected)
    ∧ (disconnect s).pending = []
    ∧ (disconnect s).subscribedDevices = []
    ∧ (disconnect s).reconnectTimerVar = none
    ∧ (disconnect s).liveReconnectTimers = []
    ∧ (disconnect s).credentialsRefreshTimer = false
    ∧ (disconnect s).clientPresent = false
    ∧ (disconnect s).connected = false
    ∧ (handleCloseEvt (disconnect s)).reconnectTimerVar = none
    ∧ (handleCloseEvt (disconnect s)).liveReconnectTimers = [] := by
  have hinv := inv_reachable hreach
  have hvar : (disconnect s).reconnectTimerVar = none := by
    unfold disconnect
    dsimp only
    exact var_clearReconnectTimer s
  have hlive : (disconnect s).liveReconnectTimers = [] := by
    unfold disconnect
    dsimp only
    exact live_clearReconnectTimer hinv.timerLive
  have hsub : (disconnect s).subscribedDevices = [] := rfl
  have hclose : handleCloseEvt (disconnect s)
      = { disconnect s with connected := false,
                            wireSubscribed := [],
                            isIntentionalDisconnect := false } := by
    unfold handleCloseEvt
    dsimp only
    split
    · next hcontra => exact absurd hsub hcontra.2
    · rfl
  refine ⟨?_, rfl, hsub, hvar, hlive, rfl, rfl, rfl, ?_, ?_⟩
  · intro e he
    rw [disconnect_settled]
    exact settledIn_foldl_mem _ _ _
      (List.mem_map.2 ⟨e, he, rfl⟩) (hinv.pendingUnsettled e he)
  · rw [hclose]
    exact hvar
  · rw [hclose]
    exact hlive

/-- Evaluation of `C3_disconnect_cleanup` on a concrete run: disconnecting
while the three requests `update:dev1` (id 0), `get:dev2` (id 1) and
`get:dev1` (id 2) are pending rejects all three with the disconnect error
and leaves an empty table and no timers. -/
theorem C3_disconnect_cleanup_witness :
    settledIn (disconnect wSessThree).settled 0 = some Outcome.rejectedDisconnected
    ∧ settledIn (disconnect wSessThree).settled 1 = some Outcome.rejectedDisconnected
    ∧ settledIn (disconnect wSessThree).settled 2 = some Outcome.rejectedDisconnected
    ∧ (disconnect wSessThree).pending = []
    ∧ (handleCloseEvt (disconnect wSessThree)).reconnectTimerVar = none := by
  have h := C3_disconnect_cleanup wSessThree reachable_wSessThree
  refine ⟨?_, ?_, ?_, h.2.1, h.2.2.2.2.2.2.2.2.1⟩
  · have := h.1 (⟨"dev1", Op.update⟩, 0, 10000) (by decide)
    exact this
  · have := h.1 (⟨"dev2", Op.get⟩, 1, 10000) (by decide)
    exact this
  · have := h.1 (⟨"dev1", Op.get⟩, 2, 10000) (by decide)
    exact this

/-- C4: when the deadline timer of a pending `get`/`update` request fires
(no accepted/rejected response arrived within its timeout, 10000 ms by
default), the request's awaitable rejects with the timeout error and its
entry leaves the table, so an identical follow-up request settles no
promise at all — in particular it does not reject anything as
superseded against a stale entry. -/
theorem C4_timeout_cleanup (s : Sess) (k : ReqKey) (id : Nat)
    (hreach : Reachable s) (hold : lookupPending s k = some id) :
    settledIn (fireRequestTimeout k s).settled id = some Outcome.rejectedTimeout
    ∧ lookupPending (fireRequestTimeout k s) k = none
    ∧ (∀ tmo, (issueRequest k tmo (fireRequestTimeout k s)).settled
        = (fireRequestTimeout k s).settled)
    ∧ DEFAULT_REQUEST_TIMEOUT_MS = 10000 := by
  have hinv := inv_reachable hreach
  obtain ⟨eOld, heOldMem, heOldKey, heOldId⟩ := lookupPending_some hold
  have hUnsettled : settledIn s.settled id = none :=
    heOldId ▸ hinv.pendingUnsettled eOld heOldMem
  have hnone : lookupPending (fireRequestTimeout k s) k = none := by
    unfold fireRequestTimeout
    rw [hold]
    exact lookupPending_removePending _ k s.pending rfl
  refine ⟨?_, hnone, ?_, rfl⟩
  · unfold fireRequestTimeout
    rw [hold]
    exact settledIn_settleOnce_same _ _ _ hUnsettled
  · intro tmo
    unfold issueRequest
    split
    · rw [hnone]
    · rfl

/-- Evaluation of `C4_timeout_cleanup` on a concrete run: the pending
`update:dev1` request (id 0) times out, rejects with the timeout error,
its entry disappears, and re-issuing `update:dev1` settles nothing. -/
theorem C4_timeout_cleanup_witness :
    settledIn (fireRequestTimeout ⟨"dev1", Op.update⟩ wSessUpd).settled 0
      = some Outcome.rejectedTimeout
    ∧ lookupPending (fireRequestTimeout ⟨"dev1", Op.update⟩ wSessUpd) ⟨"dev1", Op.update⟩
      = none
    ∧ (issueRequest ⟨"dev1", Op.update⟩ 10000
          (fireRequestTimeout ⟨"dev1", Op.update⟩ wSessUpd)).settled
      = (fireRequestTimeout ⟨"dev1", Op.update⟩ wSessUpd).settled := by
  have h := C4_timeout_cleanup wSessUpd ⟨"dev1", Op.update⟩ 0 reachable_wSessUpd (by decide)
  exact ⟨h.1, h.2.1, h.2.2.1 10000⟩

theorem attempts_handleConnectEvt (s : Sess) :
    (handleConnectEvt s).reconnectAttempts = 0 := by
  unfold handleConnectEvt
  dsimp only
  split
  · split <;> rfl
  · rfl

theorem attempts_runConnectInternal_success (now : Nat) (dev : Option String) (s : Sess) :
    (runConnectInternal now (ConnResult.success dev) s).1.reconnectAttempts = 0 := by
  unfold runConnectInternal
  split <;> exact attempts_handleConnectEvt _

/-- C8: every scheduled reconnect retry n is delayed by
min(1000ms · 2^(n-1), 300000ms); `scheduleReconnect` is a no-op while a
timer is in flight and otherwise increments the attempt counter exactly
once; a successful connect resets the counter to 0; and at most one
reconnect timer is live at any reachable state. -/
theorem C8_reconnect_backoff (s : Sess) (hreach : Reachable s) :
    (s.reconnectTimerVar ≠ none → scheduleReconnect s = s)
    ∧ (s.reconnectTimerVar = none →
        (scheduleReconnect s).reconnectAttempts = s.reconnectAttempts + 1
        ∧ (scheduleReconnect s).scheduledDelays
            = s.scheduledDelays
              ++ [min (RECONNECT_BASE_MS * 2 ^ ((s.reconnectAttempts + 1) - 1))
                    RECONNECT_MAX_MS])
    ∧ (∀ now dev, connectOutcome now (ConnResult.success dev) s = ConnOutcome.ok →
        (connectAttempt now (ConnResult.success dev) s).reconnectAttempts = 0)
    ∧ s.liveReconnectTimers.length ≤ 1 := by
  have hinv := inv_reachable hreach
  refine ⟨?_, ?_, ?_, ?_⟩
  · intro hv
    unfold scheduleReconnect
    cases hv2 : s.reconnectTimerVar with
    | none => exact absurd hv2 hv
    | some t => rfl
  · intro hv
    unfold scheduleReconnect
    rw [hv]
    exact ⟨rfl, rfl⟩
  · intro now dev hok
    cases hb : s.breakerMode with
    | closed =>
      unfold connectAttempt connectAttemptFull
      rw [hb]
      exact attempts_runConnectInternal_success now dev _
    | halfOpen =>
      unfold connectAttempt connectAttemptFull
      rw [hb]
      exact attempts_runConnectInternal_success now dev _
    | opened t0 =>
      unfold connectAttempt connectAttemptFull
      rw [hb]
      dsimp only
      by_cases hlt : now < t0 + HALF_OPEN_AFTER_MS
      · exfalso
        unfold connectOutcome connectAttemptFull at hok
        rw [hb] at hok
        dsimp only at hok
        rw [if_pos hlt] at hok
        exact ConnOutcome.noConfusion hok
      · rw [if_neg hlt]
        exact attempts_runConnectInternal_success now dev _
  · rw [hinv.timerLive]
    cases s.reconnectTimerVar <;> simp [Option.toList]

/-- Evaluation of `C8_reconnect_backoff` on a concrete state: scheduling
the first retry from the initial session sets the counter to 1 and a
1000 ms delay (min(1000·2^0, 300000)), and no more than one timer is
live. -/
theorem C8_reconnect_backoff_witness :
    (scheduleReconnect initSess).reconnectAttempts = 1
    ∧ (scheduleReconnect initSess).scheduledDelays = [1000]
    ∧ initSess.liveReconnectTimers.length ≤ 1 := by
  have h := C8_reconnect_backoff initSess Relation.ReflTransGen.refl
  obtain ⟨-, h2, -, h4⟩ := h
  obtain ⟨ha, hb⟩ := h2 rfl
  refine ⟨ha, ?_, h4⟩
  rw [hb]
  decide

/-- C9: at every reachable state, each wire-subscribed device is both in
the requested set and equal to the credentials' authorized device (wire
subscriptions ⊆ requested ∩ {authorizedDeviceID}); `subscribeDevice`
always records the device in the requested set; and when the session is
not Connected with a client authorized for that device, the request stays
inert — the wire subscriptions are untouched. -/
theorem C9_wire_subscription_guard (s : Sess) (d : String) (hreach : Reachable s) :
    (∀ x ∈ s.wireSubscribed, x ∈ s.subscribedDevices ∧ s.authorizedDeviceId = some x)
    ∧ d ∈ (subscribeDevice d s).subscribedDevices
    ∧ (¬ (s.connected = true ∧ s.authorizedDeviceId = some d ∧ s.clientPresent = true) →
        (subscribeDevice d s).wireSubscribed = s.wireSubscribed) := by
  have hinv := inv_reachable hreach
  have hdMem : d ∈ (if d ∈ s.subscribedDevices then s.subscribedDevices
      else d :: s.subscribedDevices) := by
    split
    · next hd => exact hd
    · exact List.mem_cons_self _ _
  refine ⟨fun x hx => ⟨hinv.wireReq x hx, hinv.wireAuth x hx⟩, ?_, ?_⟩
  · unfold subscribeDevice
    dsimp only
    split
    · exact hdMem
    · exact hdMem
  · intro hng
    unfold subscribeDevice
    dsimp only
    split
    · next hcond => exact absurd ⟨hcond.1, hcond.2.1, hcond.2.2⟩ hng
    · rfl

/-- Evaluation of `C9_wire_subscription_guard` on a concrete run: on the
session authorized for `dev1`, requesting `other` records it but issues no
wire subscription. -/
theorem C9_wire_subscription_guard_witness :
    "other" ∈ (subscribeDevice "other" wSessConn).subscribedDevices
    ∧ (subscribeDevice "other" wSessConn).wireSubscribed = wSessConn.wireSubscribed := by
  have h := C9_wire_subscription_guard wSessConn "other" reachable_wSessConn
  exact ⟨h.2.1, h.2.2 (by decide)⟩

theorem breakerTrip_mode (now : Nat) (s : Sess) :
    (breakerTrip now s).breakerMode = BreakerMode.opened now := by
  unfold breakerTrip
  dsimp only

theorem breakerTrip_failures (now : Nat) (s : Sess) :
    (breakerTrip now s).consecutiveFailures = s.consecutiveFailures := by
  unfold breakerTrip clearReconnectTimer
  dsimp only
  split <;> rfl

theorem mode_scheduleReconnect (s : Sess) :
    (scheduleReconnect s).breakerMode = s.breakerMode := by
  unfold scheduleReconnect
  split <;> rfl

theorem mode_handleConnectEvt (s : Sess) :
    (handleConnectEvt s).breakerMode = s.breakerMode := by
  unfold handleConnectEvt
  dsimp only
  split
  · split <;> rfl
  · rfl

theorem failures_handleConnectEvt (s : Sess) :
    (handleConnectEvt s).consecutiveFailures = s.consecutiveFailures := by
  unfold handleConnectEvt
  dsimp only
  split
  · split <;> rfl
  · rfl

theorem recordFailure_threshold (now : Nat) (s : Sess)
    (hb : s.breakerMode = BreakerMode.closed)
    (hf : BREAKER_THRESHOLD ≤ s.consecutiveFailures + 1) :
    (recordFailure now s).breakerMode = BreakerMode.opened now
    ∧ (recordFailure now s).consecutiveFailures = s.consecutiveFailures + 1 := by
  unfold recordFailure
  rw [hb]
  dsimp only
  rw [if_pos hf]
  exact ⟨breakerTrip_mode now _, breakerTrip_failures now _⟩

theorem recordFailure_halfOpen (now : Nat) (s : Sess)
    (hb : s.breakerMode = BreakerMode.halfOpen) :
    (recordFailure now s).breakerMode = BreakerMode.opened now := by
  unfold recordFailure
  rw [hb]
  dsimp only
  exact breakerTrip_mode now _

theorem runConnectInternal_success_mode (now : Nat) (dev : Option String) (s : Sess) :
    (runConnectInternal now (ConnResult.success dev) s).1.breakerMode
      = BreakerMode.closed := by
  unfold runConnectInternal
  split <;> exact mode_handleConnectEvt _

theorem runConnectInternal_success_failures (now : Nat) (dev : Option String) (s : Sess) :
    (runConnectInternal now (ConnResult.success dev) s).1.consecutiveFailures = 0 := by
  unfold runConnectInternal
  split <;> exact failures_handleConnectEvt _

theorem runConnectInternal_credFail_mode (now : Nat) (s : Sess)
    (hb : s.breakerMode = BreakerMode.halfOpen) :
    (runConnectInternal now ConnResult.credFail s).1.breakerMode
      = BreakerMode.opened now := by
  unfold runConnectInternal
  split
  · exact recordFailure_halfOpen now _ hb
  · exact recordFailure_halfOpen now _ hb

/-- C2: (a) a 10th consecutive connect failure opens the breaker; (b)
while the breaker is open and the 5-minute cool-down has not elapsed, any
`connect()` call returns the broken-circuit outcome immediately with no
credential fetch and no transport attempt and the state untouched; (c)
when the cool-down elapses the breaker half-opens, and exactly one
reconnect timer is scheduled — and only if devices are still requested;
(d) a successful half-open probe closes the breaker and resets both
counters, a failed probe reopens it. -/
theorem C2_circuit_breaker (s : Sess) (now t0 : Nat) (hreach : Reachable s) :
    (s.breakerMode = BreakerMode.closed → s.consecutiveFailures = BREAKER_THRESHOLD - 1 →
      (connectAttempt now ConnResult.credFail s).breakerMode = BreakerMode.opened now
      ∧ (connectAttempt now ConnResult.credFail s).consecutiveFailures = BREAKER_THRESHOLD)
    ∧ (s.breakerMode = BreakerMode.opened t0 → now < t0 + HALF_OPEN_AFTER_MS →
        ∀ r, connectAttemptFull now r s = (s, ConnOutcome.broken, []))
    ∧ (s.breakerMode = BreakerMode.opened t0 → t0 + HALF_OPEN_AFTER_MS ≤ now →
        (cooldownElapsed now s).breakerMode = BreakerMode.halfOpen
        ∧ (s.subscribedDevices ≠ [] → s.reconnectTimerVar = none →
            (cooldownElapsed now s).reconnectTimerVar = some s.nextId
            ∧ (cooldownElapsed now s).liveReconnectTimers = [s.nextId])
        ∧ (s.subscribedDevices = [] →
            cooldownElapsed now s = { s with breakerMode := BreakerMode.halfOpen }))
    ∧ (s.breakerMode = BreakerMode.halfOpen →
        (∀ dev,
          (connectAttempt now (ConnResult.success dev) s).breakerMode = BreakerMode.closed
          ∧ (connectAttempt now (ConnResult.success dev) s).consecutiveFailures = 0
          ∧ (connectAttempt now (ConnResult.success dev) s).reconnectAttempts = 0)
        ∧ (connectAttempt now ConnResult.credFail s).breakerMode
            = BreakerMode.opened now) := by
  have hinv := inv_reachable hreach
  refine ⟨?_, ?_, ?_, ?_⟩
  · intro hb hf
    unfold connectAttempt connectAttemptFull
    rw [hb]
    dsimp only
    unfold runConnectInternal
    dsimp only
    have hf10 : BREAKER_THRESHOLD ≤ s.consecutiveFailures + 1 := by
      rw [hf]
      decide
    split
    · have h := recordFailure_threshold now
        { s with clientPresent := false, connected := false, wireSubscribed := [] } hb hf10
      refine ⟨h.1, ?_⟩
      rw [h.2]
      show s.consecutiveFailures + 1 = BREAKER_THRESHOLD
      rw [hf]
      decide
    · have h := recordFailure_threshold now s hb hf10
      refine ⟨h.1, ?_⟩
      rw [h.2, hf]
      decide
  · intro hb hlt r
    unfold connectAttemptFull
    rw [hb]
    dsimp only
    rw [if_pos hlt]
  · intro hb hge
    unfold cooldownElapsed
    rw [hb]
    dsimp only
    rw [if_pos hge]
    refine ⟨?_, ?_, ?_⟩
    · split
      · exact mode_scheduleReconnect _
      · rfl
    · intro hdev hvar
      rw [if_pos ⟨hdev, hvar⟩]
      have hlive : s.liveReconnectTimers = [] := by
        rw [hinv.timerLive, hvar]
        rfl
      constructor
      · unfold scheduleReconnect
        have : ({ s with breakerMode := BreakerMode.halfOpen } : Sess).reconnectTimerVar
            = none := hvar
        rw [this]
        rfl
      · unfold scheduleReconnect
        have : ({ s with breakerMode := BreakerMode.halfOpen } : Sess).reconnectTimerVar
            = none := hvar
        rw [this]
        dsimp only
        rw [hlive]
        rfl
    · intro hdev
      rw [if_neg (fun hcontra => hcontra.1 hdev)]
  · intro hb
    constructor
    · intro dev
      unfold connectAttempt connectAttemptFull
      rw [hb]
      dsimp only
      exact ⟨runConnectInternal_success_mode now dev s,
        runConnectInternal_success_failures now dev s,
        attempts_runConnectInternal_success now dev s⟩
    · unfold connectAttempt connectAttemptFull
      rw [hb]
      dsimp only
      exact runConnectInternal_credFail_mode now s hb

/-- Evaluation of `C2_circuit_breaker` on a concrete run: with one device
requested, the 10th consecutive failed connect opens the breaker; the next
connect call is rejected broken-circuit with the state untouched and no
external actions; once the 5-minute cool-down has elapsed the breaker
half-opens and exactly one reconnect timer is scheduled; a successful
probe then closes the breaker with the failure counter reset. -/
theorem C2_circuit_breaker_witness :
    (connectAttempt 0 ConnResult.credFail (failN 9)).breakerMode = BreakerMode.opened 0
    ∧ connectAttemptFull 1 ConnResult.credFail (failN 10)
        = (failN 10, ConnOutcome.broken, [])
    ∧ (cooldownElapsed 300000 (failN 10)).breakerMode = BreakerMode.halfOpen
    ∧ (cooldownElapsed 300000 (failN 10)).liveReconnectTimers = [(failN 10).nextId]
    ∧ (connectAttempt 300001 (ConnResult.success (some "dev1"))
          (cooldownElapsed 300000 (failN 10))).breakerMode = BreakerMode.closed
    ∧ (connectAttempt 300001 (ConnResult.success (some "dev1"))
          (cooldownElapsed 300000 (failN 10))).consecutiveFailures = 0 := by
  have h9 := C2_circuit_breaker (failN 9) 0 0 (reachable_failN 9)
  have h10 := C2_circuit_breaker (failN 10) 1 0 (reachable_failN 10)
  have h10b := C2_circuit_breaker (failN 10) 300000 0 (reachable_failN 10)
  have hHalf := C2_circuit_breaker (cooldownElapsed 300000 (failN 10)) 300001 0
    (Relation.ReflTransGen.tail (reachable_failN 10) (Step.cooldown 300000 (failN 10)))
  exact ⟨(h9.1 (by decide) (by decide)).1,
    h10.2.1 (by decide) (by decide) ConnResult.credFail,
    (h10b.2.2.1 (by decide) (by decide)).1,
    ((h10b.2.2.1 (by decide) (by decide)).2.1 (by decide) (by decide)).2,
    ((hHalf.2.2.2 (by decide)).1 (some "dev1")).1,
    ((hHalf.2.2.2 (by decide)).1 (some "dev1")).2.1⟩

end Mqtt

/-- C6: both normalizer variants decode the combined mode/fan-speed field
`D0310C` the same way: 0 is auto, the sentinel 17 is sleep, the sentinel
18 is turbo, any value in 1..16 is manual with that value as the numeric
fan speed, and any other value degrades to the synthetic `mode_N` label
(the decoder is total — it never fails); in particular `{D0310C: 2}`
normalizes to mode `manual` with fanSpeed 2. -/
theorem C6_mode_decoding (r : RawReported) (v : Int) (h : r.D0310C = some v) :
    ((v = 0 → (parseReportedState_lib r).mode = some "auto"
        ∧ (parseReportedState_009 r).mode = some "auto")
     ∧ (v = 17 → (parseReportedState_lib r).mode = some "sleep"
        ∧ (parseReportedState_009 r).mode = some "sleep")
     ∧ (v = 18 → (parseReportedState_lib r).mode = some "turbo"
        ∧ (parseReportedState_009 r).mode = some "turbo")
     ∧ (1 ≤ v → v ≤ 16 →
        (parseReportedState_lib r).mode = some "manual"
        ∧ (parseReportedState_lib r).fanSpeed = some v
        ∧ (parseReportedState_009 r).mode = some "manual"
        ∧ (parseReportedState_009 r).fanSpeed = some v)
     ∧ (v ≠ 0 → v ≠ 17 → v ≠ 18 → ¬ (1 ≤ v ∧ v ≤ 16) →
        (parseReportedState_lib r).mode = some ("mode_" ++ toString v)
        ∧ (parseReportedState_009 r).mode = some ("mode_" ++ toString v)))
    ∧ (parseReportedState_lib { D0310C := some 2 }).mode = some "manual"
    ∧ (parseReportedState_lib { D0310C := some 2 }).fanSpeed = some 2
    ∧ (parseReportedState_009 { D0310C := some 2 }).mode = some "manual"
    ∧ (parseReportedState_009 { D0310C := some 2 }).fanSpeed = some 2 := by
  refine ⟨⟨?_, ?_, ?_, ?_, ?_⟩, by decide, by decide, by decide, by decide⟩
  · intro hv
    subst hv
    constructor <;>
      simp [parseReportedState_lib, parseReportedState_009, parseModeFanLib,
        parseModeFan009, h]
  · intro hv
    subst hv
    constructor <;>
      simp [parseReportedState_lib, parseReportedState_009, parseModeFanLib,
        parseModeFan009, h]
  · intro hv
    subst hv
    constructor <;>
      simp [parseReportedState_lib, parseReportedState_009, parseModeFanLib,
        parseModeFan009, h]
  · intro h1 h16
    have hv0 : ¬ v = 0 := by omega
    have hv17 : ¬ v = 17 := by omega
    have hv18 : ¬ v = 18 := by omega
    refine ⟨?_, ?_, ?_, ?_⟩ <;>
      simp [parseReportedState_lib, parseReportedState_009, parseModeFanLib,
        parseModeFan009, parseFanSpeedLib, h, hv0, hv17, hv18, h1, h16]
  · intro hv0 hv17 hv18 hnm
    constructor <;>
      simp [parseReportedState_lib, parseReportedState_009, parseModeFanLib,
        parseModeFan009, h, hv0, hv17, hv18, hnm]

/-- Evaluation of `C6_mode_decoding` on a concrete input: `{D0310C: 17}`
normalizes to mode `sleep` in both variants. -/
theorem C6_mode_decoding_witness :
    (parseReportedState_lib { D0310C := some 17 }).mode = some "sleep"
    ∧ (parseReportedState_009 { D0310C := some 17 }).mode = some "sleep" :=
  (C6_mode_decoding { D0310C := some 17 } 17 rfl).1.2.1 rfl

/-- C7 counterexample: the claim asserts that both sibling normalizers
round the deci-degree field `D03224` to whole degrees, but the
`src/unnamed/part_009` variant divides by 10 without rounding: at
`{D03224: 215}` it yields 21.5 (binary64 computes 215/10 exactly), which
is not the rounded value 22. -/
theorem C7_counterexample :
    (parseReportedState_009 { D03224 := some 215 }).temperature = some ((215 : Rat) / 10)
    ∧ ((215 : Rat) / 10) ≠ ((jsRound ((215 : Rat) / 10) : Int) : Rat) := by
  constructor
  · simp [parseReportedState_009, parseTemperature009]
  · norm_num [jsRound]

/-- C7 amended: on a raw field set with the newest-generation deci-degree
temperature field `D03224` holding `t`, the `src/lib/parser.js` normalizer
yields `Math.round(t / 10)` (rounded to the nearest whole degree, half
up), while the sibling in `src/unnamed/part_009` yields the unrounded
quotient `t / 10`. -/
theorem C7_amended_temperature (r : RawReported) (t : Int) (h : r.D03224 = some t) :
    (parseReportedState_lib r).temperature = some (jsRound ((t : Rat) / 10))
    ∧ (parseReportedState_009 r).temperature = some ((t : Rat) / 10) := by
  constructor
  · simp [parseReportedState_lib, parseTemperatureLib, h]
  · simp [parseReportedState_009, parseTemperature009, h]

/-- Evaluation of `C7_amended_temperature` at `t = 215`: lib rounds to 22,
part_009 keeps 21.5. -/
theorem C7_amended_temperature_witness :
    (parseReportedState_lib { D03224 := some 215 }).temperature = some 22
    ∧ (parseReportedState_009 { D03224 := some 215 }).temperature
        = some ((215 : Rat) / 10) := by
  have h := C7_amended_temperature { D03224 := some 215 } 215 rfl
  refine ⟨?_, h.2⟩
  rw [h.1]
  norm_num [jsRound]

theorem jsTruthyInt_iff (o : Option Int) :
    jsTruthyInt o = true ↔ o.isSome = true ∧ o ≠ some 0 := by
  cases o <;> simp [jsTruthyInt]

theorem parseShadowFilterBase_percent_none (r : RawReported) (fl : FilterStatus)
    (h : parseShadowFilterBase r = some fl) :
    fl.cleanPercent = none ∧ fl.replacePercent = none := by
  unfold parseShadowFilterBase at h
  rcases r with ⟨f1, f2, f3, f4, f5, f6, f7, hE, h8, h0, hs1, ht0, ht1⟩
  dsimp only at h
  cases hE <;> cases h8 <;> cases h0 <;> cases hs1 <;> cases ht0 <;> cases ht1 <;>
    first
      | exact Option.noConfusion h
      | (replace h := Option.some.inj h; subst h; exact ⟨rfl, rfl⟩)

theorem applyShadowPercents_spec (fl : FilterStatus) :
    (applyShadowPercents fl).cleanRemaining = fl.cleanRemaining
    ∧ (applyShadowPercents fl).cleanNominal = fl.cleanNominal
    ∧ (applyShadowPercents fl).replaceRemaining = fl.replaceRemaining
    ∧ (applyShadowPercents fl).replaceNominal = fl.replaceNominal
    ∧ (applyShadowPercents fl).cleanPercent
        = (if jsTruthyInt fl.cleanNominal ∧ fl.cleanRemaining.isSome
           then some (jsRound
             ((fl.cleanRemaining.getD 0 : Rat) / (fl.cleanNominal.getD 0 : Rat) * 100))
           else fl.cleanPercent)
    ∧ (applyShadowPercents fl).replacePercent
        = (if jsTruthyInt fl.replaceNominal ∧ fl.replaceRemaining.isSome
           then some (jsRound
             ((fl.replaceRemaining.getD 0 : Rat) / (fl.replaceNominal.getD 0 : Rat) * 100))
           else fl.replacePercent)
    := by
  unfold applyShadowPercents
  dsimp only
  split <;> split <;> simp_all

/-- C10: in every normalizer variant (`src/lib/parser.js`,
`src/unnamed/part_009` — which share the filter block — and the
`parseFilterProperties` of `src/unnamed/part_008`), a filter wear
percentage is present only when the corresponding nominal value is present
and nonzero and the remaining value is present; when the nominal is 0 or
absent, the percent field is simply absent (never Infinity or NaN) —
the division is evaluated only under the truthiness guard. -/
theorem C10_filter_percent_guard :
    (∀ r fl, parseShadowFilter r = some fl →
      ((fl.cleanPercent.isSome = true →
          fl.cleanNominal.isSome = true ∧ fl.cleanNominal ≠ some 0
          ∧ fl.cleanRemaining.isSome = true)
       ∧ ((fl.cleanNominal = none ∨ fl.cleanNominal = some 0) → fl.cleanPercent = none)
       ∧ (fl.replacePercent.isSome = true →
          fl.replaceNominal.isSome = true ∧ fl.replaceNominal ≠ some 0
          ∧ fl.replaceRemaining.isSome = true)
       ∧ ((fl.replaceNominal = none ∨ fl.replaceNominal = some 0) →
          fl.replacePercent = none)))
    ∧ (∀ r, (parseReportedState_lib r).filter = parseShadowFilter r
        ∧ (parseReportedState_009 r).filter = parseShadowFilter r)
    ∧ (∀ p, ((parseFilterProperties p).cleanPercent.isSome = true →
          p.fltt0.isSome = true ∧ p.fltt0 ≠ some 0 ∧ p.fltsts0.isSome = true)
       ∧ ((p.fltt0 = none ∨ p.fltt0 = some 0) →
          (parseFilterProperties p).cleanPercent = none)
       ∧ ((parseFilterProperties p).replacePercent.isSome = true →
          p.fltt1.isSome = true ∧ p.fltt1 ≠ some 0 ∧ p.fltsts1.isSome = true)
       ∧ ((p.fltt1 = none ∨ p.fltt1 = some 0) →
          (parseFilterProperties p).replacePercent = none)) := by
  refine ⟨?_, fun r => ⟨rfl, rfl⟩, ?_⟩
  · intro r fl h
    unfold parseShadowFilter at h
    cases hb : parseShadowFilterBase r with
    | none => rw [hb] at h; cases h
    | some b =>
      rw [hb] at h
      simp only [Option.map_some, Option.map_some', Option.some.injEq] at h
      subst h
      obtain ⟨hpc, hpr⟩ := parseShadowFilterBase_percent_none r b hb
      obtain ⟨e1, e2, e3, e4, e5, e6⟩ := applyShadowPercents_spec b
      refine ⟨?_, ?_, ?_, ?_⟩
      · intro hsome
        rw [e5] at hsome
        split at hsome
        · next hg =>
          have h1 := (jsTruthyInt_iff _).1 hg.1
          exact ⟨by rw [e2]; exact h1.1, by rw [e2]; exact h1.2, by rw [e1]; exact hg.2⟩
        · rw [hpc] at hsome
          cases hsome
      · intro hnom
        rw [e5]
        split
        · next hg =>
          have h1 := (jsTruthyInt_iff _).1 hg.1
          rcases hnom with hnone | h0
          · rw [e2] at hnone
            rw [hnone] at h1
            simp at h1
          · rw [e2] at h0
            exact absurd h0 h1.2
        · exact hpc
      · intro hsome
        rw [e6] at hsome
        split at hsome
        · next hg =>
          have h1 := (jsTruthyInt_iff _).1 hg.1
          exact ⟨by rw [e4]; exact h1.1, by rw [e4]; exact h1.2, by rw [e3]; exact hg.2⟩
        · rw [hpr] at hsome
          cases hsome
      · intro hnom
        rw [e6]
        split
        · next hg =>
          have h1 := (jsTruthyInt_iff _).1 hg.1
          rcases hnom with hnone | h0
          · rw [e4] at hnone
            rw [hnone] at h1
            simp at h1
          · rw [e4] at h0
            exact absurd h0 h1.2
        · exact hpr
  · intro p
    unfold parseFilterProperties
    dsimp only
    split
    · next hgC =>
      have h1 := (jsTruthyInt_iff _).1 hgC.1
      split
      · next hgR =>
        have h2 := (jsTruthyInt_iff _).1 hgR.1
        exact ⟨fun _ => ⟨h1.1, h1.2, hgC.2⟩,
          (fun hnom => by rcases hnom with hnone | h0
                          · rw [hnone] at h1; simp at h1
                          · exact absurd h0 h1.2),
          fun _ => ⟨h2.1, h2.2, hgR.2⟩,
          (fun hnom => by rcases hnom with hnone | h0
                          · rw [hnone] at h2; simp at h2
                          · exact absurd h0 h2.2)⟩
      · next hgR =>
        refine ⟨fun _ => ⟨h1.1, h1.2, hgC.2⟩,
          (fun hnom => by rcases hnom with hnone | h0
                          · rw [hnone] at h1; simp at h1
                          · exact absurd h0 h1.2),
          fun hsome => absurd hsome (by simp), fun _ => rfl⟩
    · next hgC =>
      split
      · next hgR =>
        have h2 := (jsTruthyInt_iff _).1 hgR.1
        refine ⟨fun hsome => absurd hsome (by simp), fun _ => rfl,
          fun _ => ⟨h2.1, h2.2, hgR.2⟩,
          (fun hnom => by rcases hnom with hnone | h0
                          · rw [hnone] at h2; simp at h2
                          · exact absurd h0 h2.2)⟩
      · next hgR =>
        exact ⟨fun hsome => absurd hsome (by simp), fun _ => rfl,
          fun hsome => absurd hsome (by simp), fun _ => rfl⟩

/-- Evaluation of `C10_filter_percent_guard`: a filter message with
remaining 180 hours and nominal 0 hours produces no percent field at all
(the filter object built by the shadow normalizers at that input carries
`cleanPercent = none`, and likewise the filtRd parser) — the division
never happens. -/
theorem C10_filter_percent_guard_witness :
    (⟨some 180, some 0, none, none, none, none⟩ : FilterStatus).cleanPercent = none
    ∧ (parseFilterProperties { fltsts0 := some 180, fltt0 := some 0 }).cleanPercent
        = none := by
  have hconc : parseShadowFilter { fltsts0 := some 180, fltt0 := some 0 }
      = some ⟨some 180, some 0, none, none, none, none⟩ := by decide
  exact ⟨(C10_filter_percent_guard.1 _ _ hconc).2.1 (Or.inr rfl),
    (C10_filter_percent_guard.2.2 { fltsts0 := some 180, fltt0 := some 0 }).2.1
      (Or.inr rfl)⟩

theorem modeFieldLib_shape (o : CommandOptions) :
    modeFieldLib o = [] ∨ ∃ n, modeFieldLib o = [("D0310C", JsVal.num n)] := by
  unfold modeFieldLib
  split
  · dsimp only
    split
    · exact Or.inr ⟨0, rfl⟩
    · split
      · exact Or.inr ⟨17, rfl⟩
      · split
        · exact Or.inr ⟨18, rfl⟩
        · split
          · cases o.fanSpeed with
            | some fs => exact Or.inr ⟨_, rfl⟩
            | none => exact Or.inl rfl
          · exact Or.inl rfl
  · exact Or.inl rfl

theorem modeField009_shape (o : CommandOptions) :
    modeField009 o = [] ∨ ∃ n, modeField009 o = [("D0310C", JsVal.num n)] := by
  unfold modeField009
  split
  · dsimp only
    split
    · exact Or.inr ⟨0, rfl⟩
    · split
      · exact Or.inr ⟨17, rfl⟩
      · split
        · exact Or.inr ⟨18, rfl⟩
        · split
          · cases o.fanSpeed with
            | some fs => exact Or.inr ⟨_, rfl⟩
            | none => exact Or.inl rfl
          · exact Or.inl rfl
  · exact Or.inl rfl

/-- C5 counterexample: the claim says `buildDesired` emits only
newest-protocol-generation field identifiers in both variants, but the
`src/lib/parser.js` variant encodes `childLock` with the legacy v1 string
key `cl` (and likewise `rhset`/`uil`), which is not a v3 DID. -/
theorem C5_counterexample :
    buildDesiredState_lib { childLock := some true } = [("cl", JsVal.str "1")]
    ∧ "cl" ∉ v3FieldKeys := by
  constructor
  · decide
  · decide

/-- C5 amended: the `src/unnamed/part_009` variant emits only
newest-generation DIDs; in both variants `buildDesired({power: false})`
yields exactly `{D03102: 0}`, and an attribute absent from the command
never produces its field (no defaulting: no `D03102` without `power`, no
`D0310C` when both `mode` and `fanSpeed` are absent, no
`rhset`/`D03128`, `cl`/`D03103`, `uil`/`D03105` without the corresponding
attribute); the lib variant, however, encodes `childLock` (and
`targetHumidity`, `displayLight`) with legacy v1 keys instead of v3
DIDs. -/
theorem C5_amended_build_desired (o : CommandOptions) :
    (∀ kv ∈ buildDesiredState_009 o, kv.1 ∈ v3FieldKeys)
    ∧ (buildDesiredState_lib { power := some false } = [("D03102", JsVal.num 0)]
       ∧ buildDesiredState_009 { power := some false } = [("D03102", JsVal.num 0)])
    ∧ (o.power = none →
        (∀ kv ∈ buildDesiredState_lib o, kv.1 ≠ "D03102")
        ∧ (∀ kv ∈ buildDesiredState_009 o, kv.1 ≠ "D03102"))
    ∧ (o.mode = none → o.fanSpeed = none →
        (∀ kv ∈ buildDesiredState_lib o, kv.1 ≠ "D0310C")
        ∧ (∀ kv ∈ buildDesiredState_009 o, kv.1 ≠ "D0310C"))
    ∧ (o.targetHumidity = none →
        (∀ kv ∈ buildDesiredState_lib o, kv.1 ≠ "rhset")
        ∧ (∀ kv ∈ buildDesiredState_009 o, kv.1 ≠ "D03128"))
    ∧ (o.childLock = none →
        (∀ kv ∈ buildDesiredState_lib o, kv.1 ≠ "cl")
        ∧ (∀ kv ∈ buildDesiredState_009 o, kv.1 ≠ "D03103"))
    ∧ (o.displayLight = none →
        (∀ kv ∈ buildDesiredState_lib o, kv.1 ≠ "uil")
        ∧ (∀ kv ∈ buildDesiredState_009 o, kv.1 ≠ "D03105"))
    ∧ (∀ b, o.childLock = some b →
        ("cl", JsVal.str (if b then "1" else "0")) ∈ buildDesiredState_lib o) := by
  refine ⟨?_, ⟨by decide, by decide⟩, ?_, ?_, ?_, ?_, ?_, ?_⟩
  · intro kv hkv
    rcases modeField009_shape o with hsh | ⟨n, hsh⟩ <;>
      cases hp : o.power <;> cases hth : o.targetHumidity <;>
      cases hcl : o.childLock <;> cases hdl : o.displayLight <;>
      simp_all [buildDesiredState_009, v3FieldKeys] <;>
      rcases hkv with hkv | hkv | hkv | hkv | hkv <;> simp_all
  · intro hp
    refine ⟨?_, ?_⟩ <;> intro kv hkv <;>
      rcases modeFieldLib_shape o with hsh | ⟨n, hsh⟩ <;>
      rcases modeField009_shape o with hsh9 | ⟨n9, hsh9⟩ <;>
      cases hth : o.targetHumidity <;>
      cases hcl : o.childLock <;> cases hdl : o.displayLight <;>
      simp_all [buildDesiredState_lib, buildDesiredState_009] <;>
      rcases hkv with hkv | hkv | hkv | hkv <;> simp_all
  · intro hm hf
    have hsh : modeFieldLib o = [] := by
      unfold modeFieldLib
      rw [hm, hf]
      rfl
    have hsh9 : modeField009 o = [] := by
      unfold modeField009
      rw [hm, hf]
      rfl
    refine ⟨?_, ?_⟩ <;> intro kv hkv <;>
      cases hp : o.power <;> cases hth : o.targetHumidity <;>
      cases hcl : o.childLock <;> cases hdl : o.displayLight <;>
      simp_all [buildDesiredState_lib, buildDesiredState_009] <;>
      rcases hkv with hkv | hkv | hkv | hkv <;> simp_all
  · intro hth
    refine ⟨?_, ?_⟩ <;> intro kv hkv <;>
      rcases modeFieldLib_shape o with hsh | ⟨n, hsh⟩ <;>
      rcases modeField009_shape o with hsh9 | ⟨n9, hsh9⟩ <;>
      cases hp : o.power <;>
      cases hcl : o.childLock <;> cases hdl : o.displayLight <;>
      simp_all [buildDesiredState_lib, buildDesiredState_009] <;>
      rcases hkv with hkv | hkv | hkv | hkv <;> simp_all
  · intro hcl
    refine ⟨?_, ?_⟩ <;> intro kv hkv <;>
      rcases modeFieldLib_shape o with hsh | ⟨n, hsh⟩ <;>
      rcases modeField009_shape o with hsh9 | ⟨n9, hsh9⟩ <;>
      cases hp : o.power <;>
      cases hth : o.targetHumidity <;> cases hdl : o.displayLight <;>
      simp_all [buildDesiredState_lib, buildDesiredState_009] <;>
      rcases hkv with hkv | hkv | hkv | hkv <;> simp_all
  · intro hdl
    refine ⟨?_, ?_⟩ <;> intro kv hkv <;>
      rcases modeFieldLib_shape o with hsh | ⟨n, hsh⟩ <;>
      rcases modeField009_shape o with hsh9 | ⟨n9, hsh9⟩ <;>
      cases hp : o.power <;>
      cases hth : o.targetHumidity <;> cases hcl : o.childLock <;>
      simp_all [buildDesiredState_lib, buildDesiredState_009] <;>
      rcases hkv with hkv | hkv | hkv | hkv <;> simp_all
  · intro b hb
    simp [buildDesiredState_lib, hb]

/-- Evaluation of `C5_amended_build_desired`: the lib variant really emits
the legacy pair `("cl", "1")` for `childLock: true`, and the power-only
command yields exactly `{D03102: 0}`. -/
theorem C5_amended_build_desired_witness :
    ("cl", JsVal.str "1") ∈ buildDesiredState_lib { childLock := some true }
    ∧ buildDesiredState_lib { power := some false } = [("D03102", JsVal.num 0)] := by
  have h := C5_amended_build_desired { childLock := some true }
  exact ⟨by simpa using h.2.2.2.2.2.2.2 true rfl, h.2.1.1⟩

example : buildDesiredState_lib { power := some false } = [("D03102", JsVal.num 0)] := by decide
example : buildDesiredState_009 { power := some false } = [("D03102", JsVal.num 0)] := by decide
example : (parseReportedState_lib { D0310C := some 2 }).mode = some "manual" := by decide
example : (parseReportedState_009 { D03224 := some 215 }).temperature = some (43/2 : Rat) := by
  simp only [parseReportedState_009, parseTemperature009]
  norm_num
example : (parseFilterProperties { fltsts0 := some 180, fltt0 := some 360 }).cleanPercent = some 50 := by
  simp only [parseFilterProperties, jsTruthyInt, jsRound]
  norm_num

end AirPlus
